import Mathlib

/-!
# VoiceCloneText: recorder, player, text validation, cloner and generation pipeline

A shallow embedding of the parts of the VoiceCloneText browser demo that its
specification makes claims about.

Modelling conventions.

* JavaScript numbers are exact rationals (`ℚ`); `NaN`, the infinities and
  binary rounding are outside the model.  `Math.random()` is an explicit
  argument `random`, which callers constrain to `0 ≤ random < 1`.
* An object's mutable fields are a structure; a method is a function from the
  state before the call to the state after it, paired with the list of calls it
  made on the platform or on other modules, in program order.
* `console.log`, `console.warn` and `console.error` are not recorded.
* A promise awaited by the code is given by its `Outcome`: it fulfils with a
  value, it rejects, or it never settles.
-/

set_option linter.unusedVariables false

namespace VoiceCloneText

/-! ## Platform values -/

/-- A `Blob`: its bytes and its MIME type. -/
structure Blob where
  data : List Nat
  type : String
  deriving DecidableEq, Repr

/-- The `size` of a `Blob` is the number of bytes it holds. -/
def Blob.size (b : Blob) : Nat := b.data.length

/-- A `MediaStream`; `tracks` is what `getTracks()` returns (track handles). -/
structure MediaStream where
  tracks : List Nat
  deriving DecidableEq, Repr

/-- How an awaited promise ends. `resolved none` is fulfilment with `null` or
`undefined`. -/
inductive Outcome where
  | resolved (artifact : Option Blob)
  | threw
  | pending
  deriving DecidableEq, Repr

/-- The three ways a global identifier can stand when it is read: never
declared (reading it raises `ReferenceError`, `typeof` gives `'undefined'`),
declared and holding `undefined` (`declared none`), or declared and holding
an object. -/
inductive Global (α : Type) where
  | undeclared
  | declared (value : Option α)
  deriving DecidableEq, Repr

/-! ## js/utils/helpers.js -/

/-- The result object of `getSimilarityLevel`. -/
structure SimilarityLevel where
  level : String
  «class» : String
  deriving DecidableEq, Repr

/-- `calculateSimilarityScore(recordingDuration, audioBlob)`, helpers.js 27-39. -/
def calculateSimilarityScore (recordingDuration : ℚ) (audioBlob : Blob) (random : ℚ) : ℚ :=
  let score : ℚ := min (recordingDuration / 7 * 70) 70
  let score : ℚ := score + random * 30
  min (max score 10) 95

/-- `getSimilarityLevel(score)`, helpers.js 42-46. -/
def getSimilarityLevel (score : ℚ) : SimilarityLevel :=
  if score ≥ 80 then { level := "High", «class» := "high" }
  else if score ≥ 60 then { level := "Medium", «class» := "medium" }
  else { level := "Low", «class» := "low" }

/-- `String.prototype.toLowerCase` on the characters `A`..`Z`. -/
def toLowerCase (s : String) : String := String.mk (s.data.map Char.toLower)

/-! ## js/utils/audio-effects.js -/

namespace WorkingVoiceCloner

/-- `calculateSimilarity(recordingDuration, recordingSize)`, audio-effects.js 170-183. -/
def calculateSimilarity (recordingDuration recordingSize random : ℚ) : ℚ :=
  let score : ℚ := 50
  let score : ℚ := if recordingDuration ≥ 5 then score + 15 else score
  let score : ℚ := if recordingDuration ≥ 7 then score + 10 else score
  let score : ℚ := if recordingSize > 100000 then score + 10 else score
  let score : ℚ := score + random * 15
  min score 80

end WorkingVoiceCloner

/-! ## js/modules/text-input.js -/

/-- The code points that `String.prototype.trim` strips: ECMAScript WhiteSpace
and LineTerminator. -/
def isJSWhiteSpace (c : Char) : Bool :=
  let n := c.toNat
  n = 0x09 || n = 0x0A || n = 0x0B || n = 0x0C || n = 0x0D || n = 0x20 ||
  n = 0xA0 || n = 0x1680 || (0x2000 ≤ n && n ≤ 0x200A) || n = 0x2028 ||
  n = 0x2029 || n = 0x202F || n = 0x205F || n = 0x3000 || n = 0xFEFF

/-- `String.prototype.trim`. -/
def jsTrim (s : String) : String :=
  String.mk ((s.data.dropWhile isJSWhiteSpace).reverse.dropWhile isJSWhiteSpace).reverse

namespace TextInput

/-- `getText()`, text-input.js 94-96; `value` is `this.textArea.value`. -/
def getText (value : String) : String := jsTrim value

end TextInput

/-! ## js/modules/recorder.js -/

/-- Calls a `VoiceRecorder` makes on the platform and on the page. The first
three are those of stopping; the others are those of `startRecording`.
`getUserMedia` carries what the request ended with (`none`: rejected),
`newMediaRecorder` the `mimeType` option it was given and what the
constructor returned (`none`: it threw), and `setInterval` the handle it
returned. The last three are those of `handleRecordingStop`. -/
inductive RecorderCall where
  | mediaRecorderStop (recorder : Nat)
  | clearInterval (timer : Nat)
  | trackStop (track : Nat)
  | getUserMedia (result : Option MediaStream)
  | newMediaRecorder (mimeType : Option String) (result : Option Nat)
  | mediaRecorderStart (recorder : Nat) (timeslice : Nat)
  | updateUIForRecording (recording : Bool)
  | setInterval (timer : Nat) (delay : Nat)
  | setTimeout (delay : Nat)
  | alert (message : String)
  | checkGenerateButtonState
  | originalAudioSrc (audioUrl : String)
  | dispatchRecordingComplete (audioBlob : Blob) (duration : ℚ) (audioUrl : String)
  deriving DecidableEq, Repr

/-- The fields of a `VoiceRecorder` (constructor, recorder.js 7-17, and the two
fields `handleRecordingStop` adds). Handles of platform objects are numbers;
`none` is `null`. Times are in milliseconds. -/
structure VoiceRecorder where
  mediaRecorder : Option Nat
  audioChunks : List Blob
  isRecording : Bool
  recordingStartTime : Nat
  recordingTimer : Option Nat
  recordingDuration : ℚ
  audioStream : Option MediaStream
  maxDuration : Nat
  recordedAudio : Option Blob
  recordedAudioUrl : Option String
  deriving DecidableEq, Repr

namespace VoiceRecorder

/-- `stopTimer()`, recorder.js 253-258. A timer handle of `0` is falsy. -/
def stopTimer (r : VoiceRecorder) : VoiceRecorder × List RecorderCall :=
  match r.recordingTimer with
  | some timer =>
    if timer ≠ 0 then ({ r with recordingTimer := none }, [RecorderCall.clearInterval timer])
    else (r, [])
  | none => (r, [])

/-- `stopRecording()`, recorder.js 136-156. `MediaRecorder.stop()` returns
normally and only queues the `stop` event, so `handleRecordingStop` is not
part of this call. -/
def stopRecording (r : VoiceRecorder) : VoiceRecorder × List RecorderCall :=
  match r.mediaRecorder with
  | some recorder =>
    if r.isRecording then
      let calls := [RecorderCall.mediaRecorderStop recorder]
      let r := { r with isRecording := false }
      let (r, timerCalls) := stopTimer r
      let calls := calls ++ timerCalls
      match r.audioStream with
      | some stream =>
        let calls := calls ++ stream.tracks.map RecorderCall.trackStop
        ({ r with audioStream := none }, calls)
      | none => (r, calls)
    else (r, [])
  | none => (r, [])

/-- `getRecordedAudio()`, recorder.js 299-301. -/
def getRecordedAudio (r : VoiceRecorder) : Option Blob := r.recordedAudio

/-- `getRecordingDuration()`, recorder.js 307-309 (`x || 0` is `x` on numbers). -/
def getRecordingDuration (r : VoiceRecorder) : ℚ := r.recordingDuration

end VoiceRecorder

/-! ## js/modules/voice-simulator.js -/

/-- The generation strategies `generateVoiceClone` can await. -/
inductive Strategy where
  | workingGenerateVoiceClone
  | simulateBetterVoiceClone
  | generateRealVoiceClone
  | basicFallbackTTS
  deriving DecidableEq, Repr

/-- Calls a `VoiceSimulator` makes on other modules and on the platform. -/
inductive SimulatorCall where
  | alert (message : String)
  | showLoading
  | hideLoading
  | strategy (which : Strategy) (text mood : String) (pitch : ℚ)
  | playAudioBlob (audioBlob : Blob) (type : String)
  | showSimulationInfo
  | downloadAudio (blob : Blob) (filename : String)
  | showDownloadConfirmation
  deriving DecidableEq, Repr

/-- The `textContent` of the similarity element, by the expression that
produced it: the page's initial text (also set by `reset`), the template
literal of line 135 with the values of its three placeholders, or the
constant of line 162. -/
inductive SimilarityText where
  | blank
  | scored (score : ℚ) (level : String) (simulationText : String)
  | simulationMode
  deriving DecidableEq, Repr

/-- The fields of a `VoiceSimulator` and of the elements it writes to. -/
structure VoiceSimulator where
  generatedAudio : Option Blob
  isProcessing : Bool
  similarityScoreText : SimilarityText
  similarityScoreClassName : String
  downloadBtnDisabled : Bool
  deriving DecidableEq, Repr

/-- A `realVoiceCloner` object, as far as `generateVoiceClone` reads it. -/
structure RealVoiceCloner where
  apiKey : String
  deriving DecidableEq, Repr

/-- What one call of `generateVoiceClone` reads from outside the simulator. -/
structure Env where
  /-- The global `voiceRecorder`. -/
  voiceRecorder : VoiceRecorder
  /-- The text area's `value`. -/
  textValue : String
  /-- The mood selector's `value`. -/
  mood : String
  /-- The value `parseFloat` gives for the pitch slider. -/
  pitch : ℚ
  /-- Whether `typeof workingVoiceCloner !== 'undefined'`. -/
  workingVoiceCloner : Bool
  /-- The global `realVoiceCloner`. -/
  realVoiceCloner : Global RealVoiceCloner
  /-- The outcome of the strategy awaited in the `try` block. -/
  primary : Outcome
  /-- The outcome of `basicFallbackTTS` awaited in the `catch` block. -/
  fallback : Outcome
  /-- The draw of `Math.random()` inside the similarity function. -/
  random : ℚ
  deriving DecidableEq, Repr

/-- The placeholder credential. -/
def placeholderApiKey : String := "YOUR_ELEVENLABS_API_KEY"

namespace VoiceSimulator

/-- The `finally` block, voice-simulator.js 169-172. -/
def finallyBlock (s : VoiceSimulator) (calls : List SimulatorCall) :
    VoiceSimulator × List SimulatorCall :=
  ({ s with isProcessing := false }, calls ++ [SimulatorCall.hideLoading])

/-- The `catch` block, voice-simulator.js 152-168, followed by `finally`. -/
def catchBlock (s : VoiceSimulator) (env : Env) (text : String) (calls : List SimulatorCall) :
    VoiceSimulator × List SimulatorCall :=
  let calls := calls ++ [SimulatorCall.strategy Strategy.basicFallbackTTS text env.mood env.pitch]
  match env.fallback with
  | Outcome.pending => (s, calls)
  | Outcome.threw =>
    finallyBlock s (calls ++ [SimulatorCall.alert
      "Voice generation completed in simulation mode. For exact voice matching, set up ElevenLabs API key."])
  | Outcome.resolved artifact =>
    let s := { s with generatedAudio := artifact }
    match artifact with
    | some blob =>
      finallyBlock
        { s with similarityScoreText := SimilarityText.simulationMode, downloadBtnDisabled := false }
        (calls ++ [SimulatorCall.playAudioBlob blob "generated"])
    | none => finallyBlock s calls

/-- The strategy the `try` block awaits, voice-simulator.js 91-113. -/
def selectStrategy (env : Env) : Strategy :=
  if env.workingVoiceCloner then Strategy.workingGenerateVoiceClone
  else
    match env.realVoiceCloner with
    | Global.declared (some real) =>
      if real.apiKey = placeholderApiKey then Strategy.simulateBetterVoiceClone
      else Strategy.generateRealVoiceClone
    | _ => Strategy.basicFallbackTTS

/-- Lines 116-150: what the `try` block does once the strategy has fulfilled
with `artifact` (already stored in `generatedAudio`). -/
def afterGeneration (s : VoiceSimulator) (env : Env) (recordedAudio : Blob) (text : String)
    (artifact : Option Blob) (calls : List SimulatorCall) : VoiceSimulator × List SimulatorCall :=
  match artifact with
  | none => catchBlock s env text calls
  | some blob =>
    if blob.size > 0 then
      let calls := calls ++ [SimulatorCall.playAudioBlob blob "generated"]
      let duration := env.voiceRecorder.getRecordingDuration
      let score : ℚ :=
        if env.workingVoiceCloner then
          WorkingVoiceCloner.calculateSimilarity duration recordedAudio.size env.random
        else calculateSimilarityScore duration recordedAudio env.random
      let similarityInfo := getSimilarityLevel score
      match env.realVoiceCloner with
      | Global.undeclared => catchBlock s env text calls
      | Global.declared real =>
        let simulationText : String :=
          match real with
          | some cloner => if cloner.apiKey ≠ placeholderApiKey then "" else " - Simulation"
          | none => " - Simulation"
        let s := { s with
          similarityScoreText := SimilarityText.scored score similarityInfo.level simulationText,
          similarityScoreClassName := "similarity-score " ++ similarityInfo.class,
          downloadBtnDisabled := false }
        let calls :=
          match real with
          | some cloner =>
            if cloner.apiKey = placeholderApiKey then calls ++ [SimulatorCall.showSimulationInfo]
            else calls
          | none => calls
        finallyBlock s calls
    else catchBlock s env text calls

/-- `generateVoiceClone()`, voice-simulator.js 65-173. The result is the
simulator when the call has run as far as it ever will, and the calls made. -/
def generateVoiceClone (s : VoiceSimulator) (env : Env) : VoiceSimulator × List SimulatorCall :=
  if s.isProcessing then (s, [])
  else
    let text := TextInput.getText env.textValue
    match env.voiceRecorder.getRecordedAudio with
    | none => (s, [SimulatorCall.alert "Please record your voice first!"])
    | some recordedAudio =>
      if text = "" then (s, [SimulatorCall.alert "Please enter some text to generate!"])
      else
        let s := { s with isProcessing := true }
        let calls := [SimulatorCall.showLoading,
          SimulatorCall.strategy (selectStrategy env) text env.mood env.pitch]
        match env.primary with
        | Outcome.pending => (s, calls)
        | Outcome.threw => catchBlock s env text calls
        | Outcome.resolved artifact =>
          afterGeneration { s with generatedAudio := artifact } env recordedAudio text artifact calls

/-- `getStatus()`, voice-simulator.js 372-376. -/
def getStatus (s : VoiceSimulator) : String :=
  if s.isProcessing then "processing"
  else if s.generatedAudio.isSome then "completed"
  else "ready"

end VoiceSimulator

/-- Whether a call awaits a generation strategy. -/
def SimulatorCall.isStrategy : SimulatorCall → Bool
  | SimulatorCall.strategy _ _ _ _ => true
  | _ => false

/-! ## js/modules/recorder.js: starting a capture -/

/-- What one call of `startRecording` gets from the platform. -/
structure StartEnv where
  /-- The value of `Date.now()` on line 108. -/
  now : Nat
  /-- The stream `getUserMedia` fulfils with; `none` when it rejects. -/
  userMedia : Option MediaStream
  /-- The answer of `MediaRecorder.isTypeSupported('audio/webm;codecs=opus')`. -/
  opusSupported : Bool
  /-- The answer of `MediaRecorder.isTypeSupported('audio/webm')`. -/
  webmSupported : Bool
  /-- The answer of `MediaRecorder.isTypeSupported('audio/mp4')`. -/
  mp4Supported : Bool
  /-- The encoder `new MediaRecorder` returns; `none` when the constructor throws. -/
  mediaRecorder : Option Nat
  /-- Whether `mediaRecorder.start(100)` throws. -/
  startThrows : Bool
  /-- The `message` of the error thrown by the constructor or by `start`. -/
  errorMessage : String
  /-- The handle `setInterval` returns. -/
  interval : Nat
  deriving DecidableEq, Repr

namespace VoiceRecorder

/-- The `catch` block of `startRecording`, recorder.js 126-130. -/
def startFailed (r : VoiceRecorder) (calls : List RecorderCall) (message : String) :
    VoiceRecorder × List RecorderCall :=
  (r, calls ++ [RecorderCall.alert ("Unable to start recording: " ++ message),
    RecorderCall.updateUIForRecording false])

/-- `startRecording()`, recorder.js 45-131, from the call to the end of the
`try` block or of the `catch` block. The handlers it installs on the encoder
run later; the callbacks of its two timers are `autoStop` and `timerTick`. -/
def startRecording (r : VoiceRecorder) (env : StartEnv) : VoiceRecorder × List RecorderCall :=
  let calls := [RecorderCall.getUserMedia env.userMedia]
  match env.userMedia with
  | none =>
    startFailed r calls
      "Microphone access is required for recording. Please allow microphone permissions."
  | some stream =>
    let r := { r with audioStream := some stream }
    let mimeType : Option String :=
      if env.opusSupported then some "audio/webm;codecs=opus"
      else if env.webmSupported then some "audio/webm"
      else if env.mp4Supported then some "audio/mp4"
      else none
    let calls := calls ++ [RecorderCall.newMediaRecorder mimeType env.mediaRecorder]
    match env.mediaRecorder with
    | none => startFailed r calls env.errorMessage
    | some recorder =>
      let r := { r with mediaRecorder := some recorder, audioChunks := [] }
      let calls := calls ++ [RecorderCall.mediaRecorderStart recorder 100]
      if env.startThrows then startFailed r calls env.errorMessage
      else
        let r := { r with isRecording := true, recordingStartTime := env.now }
        let calls := calls ++ [RecorderCall.updateUIForRecording true]
        let r := { r with recordingTimer := some env.interval }
        let calls := calls ++ [RecorderCall.setInterval env.interval 100]
        (r, calls ++ [RecorderCall.setTimeout r.maxDuration])

/-- The callback given to `setTimeout`, recorder.js 119-124. -/
def autoStop (r : VoiceRecorder) : VoiceRecorder × List RecorderCall :=
  if r.isRecording then stopRecording r else (r, [])

/-- The callback given to `setInterval` in `startTimer()`, recorder.js 236-247,
run when `Date.now()` is `now`. -/
def timerTick (r : VoiceRecorder) (now : Nat) : VoiceRecorder × List RecorderCall :=
  let elapsed : ℤ := (now : ℤ) - (r.recordingStartTime : ℤ)
  let r := { r with recordingDuration := (elapsed : ℚ) / 1000 }
  if elapsed > (r.maxDuration : ℤ) + 1000 then stopRecording r else (r, [])

end VoiceRecorder

/-- A recorder together with the part of the platform its calls act on. -/
structure RecorderWorld where
  recorder : VoiceRecorder
  /-- The streams `getUserMedia` has handed out, oldest first. -/
  acquired : List MediaStream
  /-- The tracks on which `stop()` has been called. -/
  stopped : List Nat
  /-- The due times of the auto-stop timeouts that have not fired yet. The code
  never calls `clearTimeout`. -/
  timeouts : List Nat
  deriving DecidableEq, Repr

/-- What happens to a recorder: a call of `startRecording`, a call of
`stopRecording`, the auto-stop timeout due at `due` firing, or a tick of the
interval timer at time `now`. -/
inductive RecorderEvent where
  | startRecording (env : StartEnv)
  | stopRecording
  | autoStop (due : Nat)
  | timerTick (now : Nat)
  deriving DecidableEq, Repr

namespace RecorderWorld

/-- The effect of one platform call made at time `now`. -/
def applyCall (now : Nat) (w : RecorderWorld) : RecorderCall → RecorderWorld
  | RecorderCall.getUserMedia (some stream) => { w with acquired := w.acquired ++ [stream] }
  | RecorderCall.trackStop track => { w with stopped := w.stopped ++ [track] }
  | RecorderCall.setTimeout delay => { w with timeouts := w.timeouts ++ [now + delay] }
  | _ => w

/-- The effect of the calls of one method run, made at time `now`. -/
def applyCalls (now : Nat) (w : RecorderWorld) (run : VoiceRecorder × List RecorderCall) :
    RecorderWorld :=
  run.2.foldl (applyCall now) { w with recorder := run.1 }

/-- One event. A timeout fires only if it is pending, and is then no longer
pending; the interval callback runs only while the interval is set. -/
def step (w : RecorderWorld) : RecorderEvent → RecorderWorld
  | RecorderEvent.startRecording env =>
    applyCalls env.now w (VoiceRecorder.startRecording w.recorder env)
  | RecorderEvent.stopRecording =>
    applyCalls 0 w (VoiceRecorder.stopRecording w.recorder)
  | RecorderEvent.autoStop due =>
    if due ∈ w.timeouts then
      applyCalls due { w with timeouts := w.timeouts.erase due }
        (VoiceRecorder.autoStop w.recorder)
    else w
  | RecorderEvent.timerTick now =>
    if w.recorder.recordingTimer.isSome then
      applyCalls now w (VoiceRecorder.timerTick w.recorder now)
    else w

/-- A sequence of events, oldest first. -/
def run (w : RecorderWorld) (events : List RecorderEvent) : RecorderWorld :=
  events.foldl step w

/-- The acquired streams that still have a track on which `stop()` has not
been called. -/
def openStreams (w : RecorderWorld) : List MediaStream :=
  w.acquired.filter (fun stream => stream.tracks.any (fun track => !w.stopped.contains track))

end RecorderWorld

/-! ## js/modules/audio-player.js -/

/-- The platform's object URLs. `URL.createObjectURL` hands out `next`;
`live` are the URLs created and not revoked. -/
structure ObjectURLs where
  next : Nat
  live : List Nat
  deriving DecidableEq, Repr

namespace ObjectURLs

/-- `URL.createObjectURL(blob)`: the new URL and the registry after it. -/
def createObjectURL (urls : ObjectURLs) : Nat × ObjectURLs :=
  (urls.next, { next := urls.next + 1, live := urls.live ++ [urls.next] })

/-- `URL.revokeObjectURL(url)`. -/
def revokeObjectURL (urls : ObjectURLs) (url : Nat) : ObjectURLs :=
  { urls with live := urls.live.filter (fun u => u ≠ url) }

end ObjectURLs

/-- An `<audio>` element, as far as the player writes to it: the object URL
in `src` and the volume. -/
structure AudioElement where
  src : Option Nat
  volume : ℚ
  deriving DecidableEq, Repr

/-- Calls an `AudioPlayer` makes on its elements. -/
inductive PlayerCall where
  | load (type : String)
  | play (type : String)
  deriving DecidableEq, Repr

/-- The fields of an `AudioPlayer`, audio-player.js 7-13: the two entries of
`audioElements` (`none` when `getElementById` found nothing) and the slot
`currentPlaying` points to. -/
structure AudioPlayer where
  original : Option AudioElement
  generated : Option AudioElement
  currentPlaying : Option String
  deriving DecidableEq, Repr

namespace AudioPlayer

/-- The lookup `this.audioElements[type]` on the two keys of the object. -/
def audioElement (p : AudioPlayer) (type : String) : Option AudioElement :=
  if type = "original" then p.original
  else if type = "generated" then p.generated
  else none

/-- Writing to the element `this.audioElements[type]`. -/
def setAudioElement (p : AudioPlayer) (type : String) (element : AudioElement) : AudioPlayer :=
  if type = "original" then { p with original := some element }
  else if type = "generated" then { p with generated := some element }
  else p

/-- `playAudioBlob(audioBlob, type)`, audio-player.js 20-40. -/
def playAudioBlob (p : AudioPlayer) (urls : ObjectURLs) (audioBlob : Blob) (type : String) :
    AudioPlayer × ObjectURLs × List PlayerCall :=
  match p.audioElement type with
  | none => (p, urls, [])
  | some element =>
    let (audioUrl, urls) := urls.createObjectURL
    let p := p.setAudioElement type { element with src := some audioUrl }
    let calls := [PlayerCall.load type, PlayerCall.play type]
    ({ p with currentPlaying := some type }, urls, calls)

/-- A sequence of `playAudioBlob` calls, oldest first. -/
def playAll (p : AudioPlayer) (urls : ObjectURLs) :
    List (Blob × String) → AudioPlayer × ObjectURLs
  | [] => (p, urls)
  | (audioBlob, type) :: rest =>
    playAll (p.playAudioBlob urls audioBlob type).1 (p.playAudioBlob urls audioBlob type).2.1 rest

end AudioPlayer

/-! ## js/utils/helpers.js: text validation -/

/-- The number of UTF-16 code units of a character. -/
def utf16Units (c : Char) : Nat := if c.toNat ≥ 0x10000 then 2 else 1

/-- The `length` of a JavaScript string: its number of UTF-16 code units. -/
def jsLength (s : String) : Nat := (s.data.map utf16Units).sum

/-- The result object of `validateText`. -/
structure Validation where
  isValid : Bool
  message : String
  deriving DecidableEq, Repr

/-- `validateText(text)`, helpers.js 14-24, on strings. -/
def validateText (text : String) : Validation :=
  if text = "" ∨ jsLength (jsTrim text) = 0 then
    { isValid := false, message := "Please enter some text" }
  else if jsLength text > 1000 then
    { isValid := false, message := "Text too long (max 1000 characters)" }
  else { isValid := true, message := "Text is valid" }

/-! ## Speech synthesis -/

/-- A `SpeechSynthesisVoice`, as far as the code reads it. -/
structure Voice where
  name : String
  lang : String
  deriving DecidableEq, Repr

/-- A `SpeechSynthesisUtterance`. -/
structure Utterance where
  text : String
  voice : Option Voice
  rate : ℚ
  pitch : ℚ
  volume : ℚ
  deriving DecidableEq, Repr

/-- The utterance `new SpeechSynthesisUtterance(text)` returns. -/
def Utterance.new (text : String) : Utterance :=
  { text := text, voice := none, rate := 1, pitch := 1, volume := 1 }

/-- The rate, pitch and volume of an utterance, in this order. -/
def Utterance.settings (u : Utterance) : ℚ × ℚ × ℚ := (u.rate, u.pitch, u.volume)

/-- `String.prototype.includes`. -/
def jsIncludes (s sub : String) : Bool := s.data.tails.any (fun t => sub.data.isPrefixOf t)

/-- `String.prototype.startsWith`. -/
def jsStartsWith (s sub : String) : Bool := sub.data.isPrefixOf s.data

/-- The UTF-8 bytes of a string, which is what a `Blob` built from it holds. -/
def utf8Bytes (s : String) : List Nat :=
  (s.data.flatMap String.utf8EncodeChar).map UInt8.toNat

/-- What a simulated generation does: the utterance it hands to
`speechSynthesis.speak`, the blob its promise fulfils with, and the delay in
milliseconds after which it fulfils. -/
structure Synthesis where
  spoken : Utterance
  artifact : Blob
  delay : Nat
  deriving DecidableEq, Repr

/-! ## js/utils/audio-effects.js: the cloner -/

/-- The fields of a `WorkingVoiceCloner`. -/
structure WorkingVoiceCloner where
  useRealCloning : Bool
  apiKey : Option String
  deriving DecidableEq, Repr

namespace WorkingVoiceCloner

/-- `getApiKey()`, audio-effects.js 30-33. -/
def getApiKey (c : WorkingVoiceCloner) : String := "YOUR_ELEVENLABS_API_KEY"

/-- `initializeRealCloning()`, audio-effects.js 15-25. It awaits nothing, so it
has run to its end when the call returns. -/
def initializeRealCloning (c : WorkingVoiceCloner) : WorkingVoiceCloner :=
  let apiKey := c.getApiKey
  if apiKey ≠ "" ∧
      apiKey ≠ "5c01f66917ee7ca5e4d2e4b59a20e38f723254f3ae8d236bb7dd5161821cee46" then
    { c with useRealCloning := true, apiKey := some apiKey }
  else c

/-- The constructor, audio-effects.js 7-10. -/
def new : WorkingVoiceCloner :=
  initializeRealCloning { useRealCloning := false, apiKey := none }

/-- `applyVoiceSettings(utterance, mood, pitch)`, audio-effects.js 86-143;
`voices` is what `speechSynthesis.getVoices()` returns. -/
def applyVoiceSettings (utterance : Utterance) (voices : List Voice) (mood : String) (pitch : ℚ) :
    Utterance :=
  let preferredVoices := voices.filter (fun voice =>
    jsStartsWith voice.lang "en" && !jsIncludes voice.name "Google" &&
      !jsIncludes voice.name "Robotic")
  let selectedVoice : Option Voice :=
    match preferredVoices with
    | [] => none
    | first :: _ =>
      some ((preferredVoices.find? (fun voice =>
        jsIncludes voice.name "Natural" || jsIncludes voice.name "David" ||
        jsIncludes voice.name "Samantha" || jsIncludes voice.name "Karen" ||
        jsIncludes voice.name "Daniel")).getD first)
  let utterance : Utterance :=
    match selectedVoice with
    | some voice => { utterance with voice := some voice }
    | none => utterance
  if mood = "happy" then
    { utterance with rate := 1.1, pitch := min (pitch + 0.2) 2.0, volume := 0.9 }
  else if mood = "sad" then
    { utterance with rate := 0.8, pitch := max (pitch - 0.1) 0.5, volume := 0.7 }
  else if mood = "robotic" then
    { utterance with rate := 0.9, pitch := 1.0, volume := 0.8 }
  else
    { utterance with rate := 1.0, pitch := pitch, volume := 0.8 }

/-- `createRealisticAudioBlob(utterance)`, audio-effects.js 148-165. -/
def createRealisticAudioBlob (utterance : Utterance) : Synthesis :=
  { spoken := utterance,
    artifact :=
      { data := utf8Bytes
          "VoiceCloneText - Enhanced Simulation\nYour voice clone has been generated using enhanced simulation mode.",
        type := "audio/mpeg" },
    delay := 2500 }

/-- `generateEnhancedSimulation(recordedBlob, text, mood, pitch)`,
audio-effects.js 66-81. `Except.ok` is a promise that fulfils, `Except.error` one
that rejects with the given message. -/
def generateEnhancedSimulation (c : WorkingVoiceCloner) (voices : List Voice)
    (recordedBlob : Blob) (text mood : String) (pitch : ℚ) : Except String Synthesis :=
  let utterance := Utterance.new text
  let utterance := applyVoiceSettings utterance voices mood pitch
  Except.ok (createRealisticAudioBlob utterance)

/-- `generateWithRealAPI(recordedBlob, text, mood, pitch)`, audio-effects.js
51-61: the `try` block throws, the `catch` block takes over. -/
def generateWithRealAPI (c : WorkingVoiceCloner) (voices : List Voice)
    (recordedBlob : Blob) (text mood : String) (pitch : ℚ) : Except String Synthesis :=
  let attempt : Except String Synthesis := Except.error "Real API not configured yet"
  match attempt with
  | Except.ok synthesis => Except.ok synthesis
  | Except.error _ => c.generateEnhancedSimulation voices recordedBlob text mood pitch

/-- `generateVoiceClone(recordedBlob, text, mood, pitch)`, audio-effects.js 38-46. -/
def generateVoiceClone (c : WorkingVoiceCloner) (voices : List Voice)
    (recordedBlob : Blob) (text mood : String) (pitch : ℚ) : Except String Synthesis :=
  if c.useRealCloning then c.generateWithRealAPI voices recordedBlob text mood pitch
  else c.generateEnhancedSimulation voices recordedBlob text mood pitch

end WorkingVoiceCloner

namespace VoiceSimulator

/-- `setupUtterance(utterance, mood, pitch)`, voice-simulator.js 231-284;
`voices` is what `speechSynthesis.getVoices()` returns. -/
def setupUtterance (utterance : Utterance) (voices : List Voice) (mood : String) (pitch : ℚ) :
    Utterance :=
  let preferredVoices := voices.filter (fun voice =>
    jsIncludes voice.lang "en" && !jsIncludes voice.name "Google" &&
      !jsIncludes voice.name "Robotic")
  let utterance : Utterance :=
    match preferredVoices with
    | [] => utterance
    | first :: _ =>
      let naturalVoice := (preferredVoices.find? (fun voice =>
        jsIncludes voice.name "Natural" || jsIncludes voice.name "Samantha" ||
        jsIncludes voice.name "Karen" || jsIncludes voice.name "Daniel" ||
        jsIncludes voice.name "Alex")).getD first
      { utterance with voice := some naturalVoice }
  if mood = "happy" then
    { utterance with rate := 1.15, pitch := min (pitch + 0.15) 2.0, volume := 0.9 }
  else if mood = "sad" then
    { utterance with rate := 0.85, pitch := max (pitch - 0.1) 0.5, volume := 0.8 }
  else if mood = "robotic" then
    { utterance with rate := 0.95, pitch := 1.0, volume := 0.85 }
  else
    { utterance with rate := 1.0, pitch := pitch, volume := 0.85 }

end VoiceSimulator

/-! ## js/modules/recorder.js: collecting and assembling the capture -/

/-- The blob `new Blob(parts, { type })` builds from blobs: their bytes in
order. The `type` of a blob, and the constant `'audio/webm'`, are already in
the form the constructor normalises to, so the type is taken as given. -/
def Blob.concat (parts : List Blob) (type : String) : Blob :=
  { data := parts.flatMap Blob.data, type := type }

/-- The text of an object URL, from the number the registry handed out. -/
def objectURLText (url : Nat) : String := "blob:" ++ toString url

namespace VoiceRecorder

/-- The `ondataavailable` handler, recorder.js 85-90; `data` is `event.data`. -/
def dataAvailable (r : VoiceRecorder) (data : Blob) : VoiceRecorder :=
  if data.size > 0 then { r with audioChunks := r.audioChunks ++ [data] } else r

/-- `handleRecordingStop()`, recorder.js 161-205, run when `Date.now()` is
`now`; `originalAudio` tells whether the page has the element
`'originalAudio'`. -/
def handleRecordingStop (r : VoiceRecorder) (now : Nat) (urls : ObjectURLs)
    (originalAudio : Bool) : VoiceRecorder × ObjectURLs × List RecorderCall :=
  let mimeType : String :=
    match r.audioChunks with
    | first :: _ => if first.type ≠ "" then first.type else "audio/webm"
    | [] => "audio/webm"
  let audioBlob := Blob.concat r.audioChunks mimeType
  let r := { r with recordedAudio := some audioBlob }
  let r := { r with
    recordingDuration := (((now : ℤ) - (r.recordingStartTime : ℤ) : ℤ) : ℚ) / 1000 }
  let calls := [RecorderCall.updateUIForRecording false, RecorderCall.checkGenerateButtonState]
  let (url, urls) := urls.createObjectURL
  let audioUrl := objectURLText url
  let r := { r with recordedAudioUrl := some audioUrl }
  let calls := if originalAudio then calls ++ [RecorderCall.originalAudioSrc audioUrl] else calls
  (r, urls,
    calls ++ [RecorderCall.dispatchRecordingComplete audioBlob r.recordingDuration audioUrl])

end VoiceRecorder

/-! ## js/modules/audio-player.js: volume -/

namespace AudioPlayer

/-- `setVolume(volume)`, audio-player.js 77-81. `Object.values` visits
`original`, then `generated`; writing `volume` on an entry that is `null`
throws, which ends the call with the entries before it already written. The
result is the player after the call and the error thrown, if any. -/
def setVolume (p : AudioPlayer) (volume : ℚ) : AudioPlayer × Option String :=
  match p.original with
  | none => (p, some "TypeError")
  | some original =>
    let p := { p with original := some { original with volume := max 0 (min 1 volume) } }
    match p.generated with
    | none => (p, some "TypeError")
    | some generated =>
      ({ p with generated := some { generated with volume := max 0 (min 1 volume) } }, none)

end AudioPlayer

/-! ## js/modules/voice-simulator.js: download and the basic tier -/

/-- The UTF-16 code units of a character. -/
def utf16Encode (c : Char) : List Nat :=
  if c.toNat < 0x10000 then [c.toNat]
  else [0xD800 + (c.toNat - 0x10000) / 0x400, 0xDC00 + (c.toNat - 0x10000) % 0x400]

/-- The code units of a JavaScript string, which are what `substring`, a
regular expression without the `u` flag and `length` count. -/
def jsUnits (s : String) : List Nat := s.data.flatMap utf16Encode

/-- The string whose code units are `units`, for units that are characters
of their own. -/
def stringOfUnits (units : List Nat) : String := String.mk (units.map Char.ofNat)

/-- Whether a code unit is one of `a`-`z`, `A`-`Z`, `0`-`9`: the units the
class `[^a-z0-9]` with the flag `i` does not match. -/
def isAsciiAlnumUnit (u : Nat) : Bool :=
  (48 ≤ u && u ≤ 57) || (65 ≤ u && u ≤ 90) || (97 ≤ u && u ≤ 122)

namespace VoiceSimulator

/-- The expression `text.substring(0, 20).replace(/[^a-z0-9]/gi, '_')`,
voice-simulator.js 319, as code units; `95` is `_`. -/
def shortTextUnits (text : String) : List Nat :=
  ((jsUnits text).take 20).map (fun u => if isAsciiAlnumUnit u then u else 95)

/-- The constant `shortText`, voice-simulator.js 319. -/
def shortText (text : String) : String := stringOfUnits (shortTextUnits text)

/-- The constant `filename`, voice-simulator.js 320; `now` is `Date.now()`. -/
def downloadFilename (text : String) (now : Nat) : String :=
  "voiceclone_" ++ shortText text ++ "_" ++ toString now ++ ".wav"

/-- `downloadGeneratedAudio()`, voice-simulator.js 311-326; `value` is the text
area's `value` and `now` is `Date.now()`. -/
def downloadGeneratedAudio (s : VoiceSimulator) (value : String) (now : Nat) :
    List SimulatorCall :=
  match s.generatedAudio with
  | none => [SimulatorCall.alert "No generated audio available to download."]
  | some generatedAudio =>
    let text := TextInput.getText value
    [SimulatorCall.downloadAudio generatedAudio (downloadFilename text now),
     SimulatorCall.showDownloadConfirmation]

/-- `speakAndResolve(utterance, resolve)`, voice-simulator.js 289-306;
`generatedAt` is the text `new Date().toLocaleString()` gives. -/
def speakAndResolve (utterance : Utterance) (generatedAt : String) : Synthesis :=
  { spoken := utterance,
    artifact :=
      { data := utf8Bytes
          ("VoiceCloneText Simulation Audio\n\nThis is simulated voice output.\nFor exact voice matching, use ElevenLabs API.\n\nGenerated at: "
            ++ generatedAt),
        type := "audio/mpeg" },
    delay := max 2000 (jsLength utterance.text * 50) }

end VoiceSimulator

/-! ## Concrete inputs -/

/-- A recorder in the middle of a capture: encoder `1`, ticker `4`, and a
stream with the two tracks `10` and `11`. -/
def recordingRecorder : VoiceRecorder :=
  { mediaRecorder := some 1, audioChunks := [], isRecording := true,
    recordingStartTime := 1000, recordingTimer := some 4, recordingDuration := 0,
    audioStream := some { tracks := [10, 11] }, maxDuration := 7000,
    recordedAudio := none, recordedAudioUrl := none }

/-- A recorder holding a finished 7 second capture. -/
def recordedRecorder : VoiceRecorder :=
  { mediaRecorder := some 1, audioChunks := [], isRecording := false,
    recordingStartTime := 1000, recordingTimer := none, recordingDuration := 7,
    audioStream := none, maxDuration := 7000,
    recordedAudio := some { data := [26, 69, 223, 163], type := "audio/webm;codecs=opus" },
    recordedAudioUrl := some "blob:1" }

/-- An artifact for the enhanced strategy to fulfil with. -/
def enhancedArtifact : Blob := { data := [86, 111, 105, 99, 101], type := "audio/mpeg" }

/-- An artifact for `basicFallbackTTS` to fulfil with. -/
def fallbackArtifact : Blob := { data := [86, 67, 84], type := "audio/mpeg" }

/-- A simulator as the constructor leaves it. -/
def readySimulator : VoiceSimulator :=
  { generatedAudio := none, isProcessing := false, similarityScoreText := SimilarityText.blank,
    similarityScoreClassName := "similarity-score", downloadBtnDisabled := true }

/-- A simulator that holds the artifact of an earlier generation. -/
def completedSimulator : VoiceSimulator :=
  { generatedAudio := some enhancedArtifact, isProcessing := false,
    similarityScoreText := SimilarityText.simulationMode,
    similarityScoreClassName := "similarity-score", downloadBtnDisabled := false }

/-- The repository as shipped (`workingVoiceCloner` defined in audio-effects.js,
`realVoiceCloner` declared nowhere) with the request "Hello world", happy,
pitch 1.0, and both strategies fulfilling. -/
def repositoryEnv : Env :=
  { voiceRecorder := recordedRecorder, textValue := "Hello world", mood := "happy", pitch := 1,
    workingVoiceCloner := true, realVoiceCloner := Global.undeclared,
    primary := Outcome.resolved (some enhancedArtifact),
    fallback := Outcome.resolved (some fallbackArtifact), random := 1 / 2 }

/-- The same request with the enhanced strategy failing. -/
def primaryFailsEnv : Env := { repositoryEnv with primary := Outcome.threw }

/-- The same request with both the enhanced strategy and the fallback failing. -/
def allFailEnv : Env :=
  { repositoryEnv with primary := Outcome.threw, fallback := Outcome.threw }

/-- The same request with only white space in the text area. -/
def blankTextEnv : Env := { repositoryEnv with textValue := "  \n\t " }

/-- A recorder as the constructor leaves it. -/
def freshRecorder : VoiceRecorder :=
  { mediaRecorder := none, audioChunks := [], isRecording := false,
    recordingStartTime := 0, recordingTimer := none, recordingDuration := 0,
    audioStream := none, maxDuration := 7000, recordedAudio := none,
    recordedAudioUrl := none }

/-- A fresh recorder on a page where no stream has been acquired yet. -/
def freshWorld : RecorderWorld :=
  { recorder := freshRecorder, acquired := [], stopped := [], timeouts := [] }

/-- A start at time 0 that succeeds: the microphone is granted with a stream
of the one track `10`, the encoder is `1`, the interval handle is `4`. -/
def firstStart : StartEnv :=
  { now := 0, userMedia := some { tracks := [10] }, opusSupported := true,
    webmSupported := true, mp4Supported := false, mediaRecorder := some 1,
    startThrows := false, errorMessage := "", interval := 4 }

/-- A start at time 3000 that succeeds: stream of the one track `20`,
encoder `2`, interval handle `5`. -/
def secondStart : StartEnv :=
  { now := 3000, userMedia := some { tracks := [20] }, opusSupported := true,
    webmSupported := true, mp4Supported := false, mediaRecorder := some 2,
    startThrows := false, errorMessage := "", interval := 5 }

/-- A start in which the microphone is granted and `new MediaRecorder` throws. -/
def encoderFailsStart : StartEnv :=
  { firstStart with mediaRecorder := none, errorMessage := "NotSupportedError" }

/-- A start in which the microphone is granted and `start(100)` throws. -/
def encoderStartFailsStart : StartEnv :=
  { firstStart with startThrows := true, errorMessage := "InvalidStateError" }

/-- A player whose two elements exist and have no source. -/
def freshPlayer : AudioPlayer :=
  { original := some { src := none, volume := 1 },
    generated := some { src := none, volume := 1 }, currentPlaying := none }

/-- A page on which no object URL has been created. -/
def noURLs : ObjectURLs := { next := 0, live := [] }

/-- A text of 1000 letters. -/
def text1000 : String := String.mk (List.replicate 1000 'a')

/-- A text of 1001 letters. -/
def text1001 : String := String.mk (List.replicate 1001 'a')

/-- The shipped configuration with a text of 1001 letters in the text area. -/
def longTextEnv : Env := { repositoryEnv with textValue := text1001 }

/-- Three voices, of which the second passes both filters and has a preferred
name. -/
def sampleVoices : List Voice :=
  [{ name := "Google US English", lang := "en-US" },
   { name := "Samantha", lang := "en-US" },
   { name := "Thomas", lang := "fr-FR" }]

/-- Four chunks in arrival order: the second is empty, the others hold 2, 1
and 3 bytes. -/
def sampleChunks : List Blob :=
  [{ data := [26, 69], type := "audio/webm;codecs=opus" },
   { data := [], type := "audio/webm;codecs=opus" },
   { data := [223], type := "audio/webm;codecs=opus" },
   { data := [163, 1, 0], type := "audio/webm;codecs=opus" }]

/-- A text of 60 letters. -/
def text60 : String := String.mk (List.replicate 60 'a')

/-- A text of 61 letters. -/
def text61 : String := String.mk (List.replicate 61 'a')

/-! ## Theorems -/

/-! ### Recorder -/

namespace VoiceRecorder

/-- A recorder that is not recording is left as it is, with no call made. -/
theorem stopRecording_not_recording (r : VoiceRecorder)
    (h : r.isRecording = false ∨ r.mediaRecorder = none) : stopRecording r = (r, []) := by
  unfold stopRecording
  rcases h with h | h
  · cases hm : r.mediaRecorder <;> simp [h]
  · simp [h]

/-- After `stopRecording` the recorder is not recording. -/
theorem stopRecording_isRecording (r : VoiceRecorder) :
    (stopRecording r).1.isRecording = false ∨ (stopRecording r).1.mediaRecorder = none := by
  obtain ⟨mr, chunks, rec, t0, timer, dur, stream, maxd, audio, url⟩ := r
  cases mr <;> cases rec <;> cases stream <;> rcases timer with _ | timer <;>
    first
    | (simp [stopRecording, stopTimer]; done)
    | (by_cases h0 : timer = 0 <;> simp [stopRecording, stopTimer, h0])

/-- The calls of a stop that finds the recorder recording: the encoder's
`stop`, then the calls of `stopTimer`, then one `stop` per entry of
`getTracks()`. -/
theorem stopRecording_calls (r : VoiceRecorder) (recorder : Nat)
    (hm : r.mediaRecorder = some recorder) (hr : r.isRecording = true) :
    (stopRecording r).2 =
      RecorderCall.mediaRecorderStop recorder ::
        ((stopTimer { r with isRecording := false }).2 ++
          (match r.audioStream with
            | some stream => stream.tracks.map RecorderCall.trackStop
            | none => [])) := by
  obtain ⟨mr, chunks, rec, t0, timer, dur, stream, maxd, audio, url⟩ := r
  simp only at hm hr
  subst hm hr
  cases stream <;> rcases timer with _ | timer <;>
    first
    | (simp [stopRecording, stopTimer]; done)
    | (by_cases h0 : timer = 0 <;> simp [stopRecording, stopTimer, h0])

/-- The calls of `stopTimer` stop no encoder and no track. -/
theorem stopTimer_calls (r : VoiceRecorder) (c : RecorderCall) (hc : c ∈ (stopTimer r).2) :
    ∃ timer, c = RecorderCall.clearInterval timer := by
  unfold stopTimer at hc
  split at hc
  · split at hc
    · simp at hc; exact ⟨_, hc⟩
    · simp at hc
  · simp at hc

/-- Among the calls of `stopTimer` there is no encoder stop and no track stop. -/
theorem stopTimer_count (r : VoiceRecorder) (c : RecorderCall)
    (hc : ∀ timer, c ≠ RecorderCall.clearInterval timer) : (stopTimer r).2.count c = 0 := by
  apply List.count_eq_zero_of_not_mem
  intro hmem
  obtain ⟨timer, ht⟩ := stopTimer_calls r c hmem
  exact hc timer ht

/-- A track is stopped as often as it is listed. -/
theorem count_trackStop_map (tracks : List Nat) (track : Nat) :
    (tracks.map RecorderCall.trackStop).count (RecorderCall.trackStop track) =
      tracks.count track := by
  induction tracks with
  | nil => rfl
  | cons t ts ih =>
    by_cases h : t = track
    · subst h; simp [ih]
    · have h2 : RecorderCall.trackStop t ≠ RecorderCall.trackStop track := by
        intro hc; exact h (RecorderCall.trackStop.inj hc)
      simp [List.count_cons, ih, h, h2]

/-- No encoder stop is among the track stops. -/
theorem count_mediaRecorderStop_map (tracks : List Nat) (recorder : Nat) :
    (tracks.map RecorderCall.trackStop).count (RecorderCall.mediaRecorderStop recorder) = 0 := by
  apply List.count_eq_zero_of_not_mem
  simp

/-- C1. `stopRecording` is idempotent. On a recorder that is not recording
(`isRecording` false or no `mediaRecorder`) it returns the recorder unchanged
and makes no call; a second `stopRecording` right after a first one is such a
call, so it leaves the state of the first and makes no call; and over the two
calls on a recording recorder the encoder's `stop` is called once and `stop`
is called on each track as often as `getTracks()` lists it, which is exactly
once when the list has no repetition. -/
theorem stopRecording_idempotent (r : VoiceRecorder) :
    ((r.isRecording = false ∨ r.mediaRecorder = none) → stopRecording r = (r, [])) ∧
    stopRecording (stopRecording r).1 = ((stopRecording r).1, []) ∧
    (∀ recorder, r.mediaRecorder = some recorder → r.isRecording = true →
      ((stopRecording r).2 ++ (stopRecording (stopRecording r).1).2).count
          (RecorderCall.mediaRecorderStop recorder) = 1 ∧
      (stopRecording r).1.audioStream = none ∧
      ∀ stream, r.audioStream = some stream →
        (∀ track, ((stopRecording r).2 ++ (stopRecording (stopRecording r).1).2).count
            (RecorderCall.trackStop track) = stream.tracks.count track) ∧
        (stream.tracks.Nodup → ∀ track ∈ stream.tracks,
          ((stopRecording r).2 ++ (stopRecording (stopRecording r).1).2).count
            (RecorderCall.trackStop track) = 1)) := by
  have hsecond : stopRecording (stopRecording r).1 = ((stopRecording r).1, []) :=
    stopRecording_not_recording _ (stopRecording_isRecording r)
  refine ⟨stopRecording_not_recording r, hsecond, ?_⟩
  intro recorder hm hr
  have hcalls := stopRecording_calls r recorder hm hr
  have htracks : ∀ stream, r.audioStream = some stream → ∀ track,
      ((stopRecording r).2 ++ (stopRecording (stopRecording r).1).2).count
        (RecorderCall.trackStop track) = stream.tracks.count track := by
    intro stream hs track
    rw [hsecond, hcalls, hs]
    simp only [List.append_nil, List.count_cons, List.count_append]
    rw [stopTimer_count _ _ (by intro t; simp), count_trackStop_map]
    simp
  refine ⟨?_, ?_, ?_⟩
  · rw [hsecond, hcalls]
    simp only [List.append_nil, List.count_cons, List.count_append]
    rw [stopTimer_count _ _ (by intro t; simp)]
    cases hs : r.audioStream with
    | none => simp
    | some stream => simp [count_mediaRecorderStop_map]
  · obtain ⟨mr, chunks, rec, t0, timer, dur, stream, maxd, audio, url⟩ := r
    simp only at hm hr
    subst hm hr
    cases stream <;> rcases timer with _ | timer <;>
      first
      | (simp [stopRecording, stopTimer]; done)
      | (by_cases h0 : timer = 0 <;> simp [stopRecording, stopTimer, h0])
  · intro stream hs
    refine ⟨htracks stream hs, ?_⟩
    intro hnodup track hmem
    rw [htracks stream hs track]
    exact List.count_eq_one_of_mem hnodup hmem

/-- C1 at `recordingRecorder`: the calls of the first stop, and the counts over
both stops of the encoder's `stop` and of the `stop` of track `10`. -/
theorem stopRecording_idempotent_witness :
    (stopRecording recordingRecorder).2 =
      [RecorderCall.mediaRecorderStop 1, RecorderCall.clearInterval 4,
        RecorderCall.trackStop 10, RecorderCall.trackStop 11] ∧
    stopRecording (stopRecording recordingRecorder).1 =
      ((stopRecording recordingRecorder).1, []) ∧
    ((stopRecording recordingRecorder).2 ++
        (stopRecording (stopRecording recordingRecorder).1).2).count
      (RecorderCall.mediaRecorderStop 1) = 1 ∧
    ((stopRecording recordingRecorder).2 ++
        (stopRecording (stopRecording recordingRecorder).1).2).count
      (RecorderCall.trackStop 10) = 1 :=
  ⟨by decide,
   (stopRecording_idempotent recordingRecorder).2.1,
   ((stopRecording_idempotent recordingRecorder).2.2 1 rfl rfl).1,
   ((((stopRecording_idempotent recordingRecorder).2.2 1 rfl rfl).2.2
      { tracks := [10, 11] } rfl).2 (by decide)) 10 (by decide)⟩

end VoiceRecorder

/-! ### Generation pipeline -/

namespace VoiceSimulator

/-- C2. From a state that is not processing, a call with no recorded artifact
or with a text that is empty after trimming awaits no strategy, leaves
`isProcessing` false and leaves `generatedAudio` (and every other field) as it
was; the only call made is the `alert`. -/
theorem generateVoiceClone_rejects_invalid (s : VoiceSimulator) (env : Env)
    (hs : s.isProcessing = false)
    (h : env.voiceRecorder.getRecordedAudio = none ∨ TextInput.getText env.textValue = "") :
    (∀ c ∈ (generateVoiceClone s env).2, c.isStrategy = false) ∧
    (generateVoiceClone s env).1.isProcessing = false ∧
    (generateVoiceClone s env).1.generatedAudio = s.generatedAudio ∧
    (generateVoiceClone s env).1 = s := by
  have key : (generateVoiceClone s env).1 = s ∧
      ∀ c ∈ (generateVoiceClone s env).2, c.isStrategy = false := by
    unfold generateVoiceClone
    cases hrec : env.voiceRecorder.getRecordedAudio with
    | none => simp [hs, SimulatorCall.isStrategy]
    | some recordedAudio =>
      have ht : TextInput.getText env.textValue = "" := by
        rcases h with h | h
        · rw [hrec] at h; cases h
        · exact h
      simp [hs, ht, SimulatorCall.isStrategy]
  refine ⟨key.2, ?_, ?_, key.1⟩
  · rw [key.1]; exact hs
  · rw [key.1]

/-- C2 at the shipped configuration with a blank text area. -/
theorem generateVoiceClone_rejects_invalid_witness :
    generateVoiceClone readySimulator blankTextEnv =
      (readySimulator, [SimulatorCall.alert "Please enter some text to generate!"]) ∧
    (generateVoiceClone readySimulator blankTextEnv).1.isProcessing = false ∧
    (generateVoiceClone readySimulator blankTextEnv).1.generatedAudio =
      readySimulator.generatedAudio :=
  ⟨by decide,
   (generateVoiceClone_rejects_invalid readySimulator blankTextEnv (by decide)
      (Or.inr (by decide))).2.1,
   (generateVoiceClone_rejects_invalid readySimulator blankTextEnv (by decide)
      (Or.inr (by decide))).2.2.1⟩

/-- C3. While `isProcessing` is true, `generateVoiceClone` returns the
simulator with every field unchanged and makes no call at all, whatever the
recording, text, mood, pitch and configuration. -/
theorem generateVoiceClone_noop_while_processing (s : VoiceSimulator) (env : Env)
    (hs : s.isProcessing = true) : generateVoiceClone s env = (s, []) := by
  unfold generateVoiceClone
  simp [hs]

/-- C3 at a processing simulator and a request that would otherwise run. -/
theorem generateVoiceClone_noop_while_processing_witness :
    generateVoiceClone { readySimulator with isProcessing := true } repositoryEnv =
      ({ readySimulator with isProcessing := true }, []) :=
  generateVoiceClone_noop_while_processing { readySimulator with isProcessing := true }
    repositoryEnv rfl

/-- When the fallback fulfils with a blob, the `catch` block stores and plays
it, enables the download button and clears `isProcessing`. -/
theorem catchBlock_resolved (s : VoiceSimulator) (env : Env) (text : String)
    (calls : List SimulatorCall) (artifact : Blob)
    (hf : env.fallback = Outcome.resolved (some artifact)) :
    (catchBlock s env text calls).1.generatedAudio = some artifact ∧
    SimulatorCall.playAudioBlob artifact "generated" ∈ (catchBlock s env text calls).2 ∧
    (catchBlock s env text calls).1.downloadBtnDisabled = false ∧
    (catchBlock s env text calls).1.isProcessing = false := by
  unfold catchBlock
  simp [hf, finallyBlock]

/-- C4. For every valid request from a state that is not processing, if the
strategy awaited first throws, or fulfils with nothing or with an empty blob,
and `basicFallbackTTS` fulfils with an artifact, the call ends with
`generatedAudio` equal to that artifact, the artifact played in the
`'generated'` slot, the download button enabled and `isProcessing` false. -/
theorem generateVoiceClone_falls_back (s : VoiceSimulator) (env : Env) (artifact : Blob)
    (hs : s.isProcessing = false)
    (hrec : env.voiceRecorder.getRecordedAudio ≠ none)
    (htext : TextInput.getText env.textValue ≠ "")
    (hp : env.primary = Outcome.threw ∨ env.primary = Outcome.resolved none ∨
      ∃ empty : Blob, env.primary = Outcome.resolved (some empty) ∧ empty.size = 0)
    (hf : env.fallback = Outcome.resolved (some artifact)) :
    (generateVoiceClone s env).1.generatedAudio = some artifact ∧
    SimulatorCall.playAudioBlob artifact "generated" ∈ (generateVoiceClone s env).2 ∧
    (generateVoiceClone s env).1.downloadBtnDisabled = false ∧
    (generateVoiceClone s env).1.isProcessing = false := by
  unfold generateVoiceClone
  cases hr : env.voiceRecorder.getRecordedAudio with
  | none => exact absurd hr hrec
  | some recordedAudio =>
    simp only [hs, htext, if_false, Bool.false_eq_true]
    rcases hp with hp | hp | ⟨empty, hp, hsize⟩
    · rw [hp]; exact catchBlock_resolved _ env _ _ artifact hf
    · rw [hp]; exact catchBlock_resolved _ env _ _ artifact hf
    · rw [hp]
      have hnot : ¬ (empty.size > 0) := by omega
      simp only [afterGeneration, hnot, if_false]
      exact catchBlock_resolved _ env _ _ artifact hf

/-- C4 at the shipped configuration with the enhanced strategy throwing. -/
theorem generateVoiceClone_falls_back_witness :
    generateVoiceClone readySimulator primaryFailsEnv =
      ({ generatedAudio := some fallbackArtifact, isProcessing := false,
         similarityScoreText := SimilarityText.simulationMode,
         similarityScoreClassName := "similarity-score", downloadBtnDisabled := false },
       [SimulatorCall.showLoading,
        SimulatorCall.strategy Strategy.workingGenerateVoiceClone "Hello world" "happy" 1,
        SimulatorCall.strategy Strategy.basicFallbackTTS "Hello world" "happy" 1,
        SimulatorCall.playAudioBlob fallbackArtifact "generated",
        SimulatorCall.hideLoading]) ∧
    (generateVoiceClone readySimulator primaryFailsEnv).1.generatedAudio =
      some fallbackArtifact :=
  ⟨by decide,
   (generateVoiceClone_falls_back readySimulator primaryFailsEnv fallbackArtifact (by decide)
      (by decide) (by decide) (Or.inl rfl) rfl).1⟩

/-- C5 as stated fails: from a simulator that still holds the artifact of an
earlier generation, a valid request whose strategies both throw ends with
`getStatus()` equal to `'completed'`, not `'ready'`. -/
theorem getStatus_after_failure_counterexample :
    completedSimulator.isProcessing = false ∧
    allFailEnv.voiceRecorder.getRecordedAudio ≠ none ∧
    TextInput.getText allFailEnv.textValue ≠ "" ∧
    allFailEnv.primary = Outcome.threw ∧ allFailEnv.fallback = Outcome.threw ∧
    (generateVoiceClone completedSimulator allFailEnv).1.isProcessing = false ∧
    getStatus (generateVoiceClone completedSimulator allFailEnv).1 = "completed" ∧
    getStatus (generateVoiceClone completedSimulator allFailEnv).1 ≠ "ready" := by
  decide

/-- C5, amended. For every valid request from a state that is not processing,
if the strategy awaited first and `basicFallbackTTS` both throw, the call
alerts the user and ends with `isProcessing` false and `generatedAudio` as it
was before the call; `getStatus()` is then never `'processing'`: it is
`'ready'` when no artifact was held before the call and `'completed'` when an
earlier artifact is still held. -/
theorem generateVoiceClone_all_fail (s : VoiceSimulator) (env : Env)
    (hs : s.isProcessing = false)
    (hrec : env.voiceRecorder.getRecordedAudio ≠ none)
    (htext : TextInput.getText env.textValue ≠ "")
    (hp : env.primary = Outcome.threw) (hf : env.fallback = Outcome.threw) :
    (SimulatorCall.alert
      "Voice generation completed in simulation mode. For exact voice matching, set up ElevenLabs API key.")
      ∈ (generateVoiceClone s env).2 ∧
    (generateVoiceClone s env).1.isProcessing = false ∧
    (generateVoiceClone s env).1.generatedAudio = s.generatedAudio ∧
    getStatus (generateVoiceClone s env).1 ≠ "processing" ∧
    (s.generatedAudio = none → getStatus (generateVoiceClone s env).1 = "ready") ∧
    (s.generatedAudio ≠ none → getStatus (generateVoiceClone s env).1 = "completed") := by
  have hrun : generateVoiceClone s env =
      ({ s with isProcessing := false },
       [SimulatorCall.showLoading,
        SimulatorCall.strategy (selectStrategy env) (TextInput.getText env.textValue)
          env.mood env.pitch,
        SimulatorCall.strategy Strategy.basicFallbackTTS (TextInput.getText env.textValue)
          env.mood env.pitch,
        (SimulatorCall.alert
      "Voice generation completed in simulation mode. For exact voice matching, set up ElevenLabs API key."),
        SimulatorCall.hideLoading]) := by
    unfold generateVoiceClone
    cases hr : env.voiceRecorder.getRecordedAudio with
    | none => exact absurd hr hrec
    | some recordedAudio =>
      simp [hs, htext, hp, hf, catchBlock, finallyBlock]
  rw [hrun]
  refine ⟨by simp, rfl, rfl, ?_, ?_, ?_⟩
  · unfold getStatus
    cases hg : s.generatedAudio <;> simp [hg]
  · intro hg
    unfold getStatus
    simp [hg]
  · intro hg
    unfold getStatus
    cases hg2 : s.generatedAudio with
    | none => exact absurd hg2 hg
    | some b => simp [hg2]

/-- C5, amended, at the shipped configuration with both strategies throwing,
from a fresh simulator: the status is `'ready'`. -/
theorem generateVoiceClone_all_fail_witness :
    (generateVoiceClone readySimulator allFailEnv).2 =
      [SimulatorCall.showLoading,
       SimulatorCall.strategy Strategy.workingGenerateVoiceClone "Hello world" "happy" 1,
       SimulatorCall.strategy Strategy.basicFallbackTTS "Hello world" "happy" 1,
       (SimulatorCall.alert
      "Voice generation completed in simulation mode. For exact voice matching, set up ElevenLabs API key."),
       SimulatorCall.hideLoading] ∧
    (generateVoiceClone readySimulator allFailEnv).1.isProcessing = false ∧
    getStatus (generateVoiceClone readySimulator allFailEnv).1 = "ready" :=
  ⟨by decide,
   (generateVoiceClone_all_fail readySimulator allFailEnv (by decide) (by decide) (by decide)
      rfl rfl).2.1,
   (generateVoiceClone_all_fail readySimulator allFailEnv (by decide) (by decide) (by decide)
      rfl rfl).2.2.2.2.1 rfl⟩

/-- With `realVoiceCloner` declared nowhere, every valid request whose first
strategy fulfils with a non-empty artifact reaches the `catch` block: the
read of `realVoiceCloner` on line 132 raises `ReferenceError` after the
artifact has been played, and `basicFallbackTTS` is awaited as well. -/
theorem generateVoiceClone_undeclared_real (s : VoiceSimulator) (env : Env)
    (recordedAudio artifact : Blob)
    (hs : s.isProcessing = false)
    (hrec : env.voiceRecorder.getRecordedAudio = some recordedAudio)
    (htext : TextInput.getText env.textValue ≠ "")
    (hreal : env.realVoiceCloner = Global.undeclared)
    (hp : env.primary = Outcome.resolved (some artifact)) (hsize : artifact.size > 0) :
    generateVoiceClone s env =
      catchBlock { s with isProcessing := true, generatedAudio := some artifact } env
        (TextInput.getText env.textValue)
        [SimulatorCall.showLoading,
         SimulatorCall.strategy (selectStrategy env) (TextInput.getText env.textValue)
           env.mood env.pitch,
         SimulatorCall.playAudioBlob artifact "generated"] := by
  unfold generateVoiceClone
  simp [hs, hrec, htext, hp, afterGeneration, hsize, hreal]

/-- C6 fails on the code. In the shipped configuration, the request "Hello
world" whose enhanced strategy fulfils with a non-empty artifact awaits two
strategies, ends with `generatedAudio` equal to the artifact of
`basicFallbackTTS` rather than the enhanced one, and shows the constant
`'Similarity: Simulation Mode'` rather than a score and a level. -/
theorem shipped_success_awaits_two_strategies :
    repositoryEnv.workingVoiceCloner = true ∧
    repositoryEnv.realVoiceCloner = Global.undeclared ∧
    repositoryEnv.primary = Outcome.resolved (some enhancedArtifact) ∧
    enhancedArtifact.size > 0 ∧
    generateVoiceClone readySimulator repositoryEnv =
      ({ generatedAudio := some fallbackArtifact, isProcessing := false,
         similarityScoreText := SimilarityText.simulationMode,
         similarityScoreClassName := "similarity-score", downloadBtnDisabled := false },
       [SimulatorCall.showLoading,
        SimulatorCall.strategy Strategy.workingGenerateVoiceClone "Hello world" "happy" 1,
        SimulatorCall.playAudioBlob enhancedArtifact "generated",
        SimulatorCall.strategy Strategy.basicFallbackTTS "Hello world" "happy" 1,
        SimulatorCall.playAudioBlob fallbackArtifact "generated",
        SimulatorCall.hideLoading]) ∧
    ((generateVoiceClone readySimulator repositoryEnv).2.filter
      SimulatorCall.isStrategy).length = 2 ∧
    (generateVoiceClone readySimulator repositoryEnv).1.generatedAudio ≠
      some enhancedArtifact := by
  decide

end VoiceSimulator

/-! ### Similarity helpers -/

/-- C7. `getSimilarityLevel` gives `High` exactly for scores of at least 80,
`Medium` exactly for scores in `[60, 80)` and `Low` exactly for scores below
60; 85, 65 and 40 give `High`, `Medium` and `Low`; and the class is always
the level in lower case. -/
theorem getSimilarityLevel_spec (score : ℚ) :
    ((getSimilarityLevel score).level = "High" ↔ score ≥ 80) ∧
    ((getSimilarityLevel score).level = "Medium" ↔ 60 ≤ score ∧ score < 80) ∧
    ((getSimilarityLevel score).level = "Low" ↔ score < 60) ∧
    (getSimilarityLevel 85).level = "High" ∧
    (getSimilarityLevel 65).level = "Medium" ∧
    (getSimilarityLevel 40).level = "Low" ∧
    (getSimilarityLevel score).class = toLowerCase (getSimilarityLevel score).level := by
  have hlow : ∀ s : ℚ, (getSimilarityLevel s).class = toLowerCase (getSimilarityLevel s).level := by
    intro s
    unfold getSimilarityLevel
    split_ifs <;> decide
  refine ⟨?_, ?_, ?_, ?_, ?_, ?_, hlow score⟩
  · unfold getSimilarityLevel
    split_ifs with h1 h2
    · simp [h1]
    · simp only [h1, iff_false]; decide
    · simp only [h1, iff_false]; decide
  · unfold getSimilarityLevel
    split_ifs with h1 h2
    · have : ¬ score < 80 := not_lt.mpr h1
      simp only [this, and_false, iff_false]; decide
    · have : score < 80 := not_le.mp h1
      simp [this, h2]
    · have : ¬ (60 ≤ score) := h2
      simp only [this, false_and, iff_false]; decide
  · unfold getSimilarityLevel
    split_ifs with h1 h2
    · have : ¬ score < 60 := by intro h; linarith
      simp only [this, iff_false]; decide
    · have : ¬ score < 60 := not_lt.mpr h2
      simp only [this, iff_false]; decide
    · have : score < 60 := not_le.mp h2
      simp [this]
  · unfold getSimilarityLevel; norm_num
  · unfold getSimilarityLevel; norm_num
  · unfold getSimilarityLevel; norm_num

namespace WorkingVoiceCloner

/-- The score before the random term is one of the sums of 50 with the
bonuses, so it lies between 50 and 85. -/
theorem calculateSimilarity_ge (recordingDuration recordingSize random : ℚ)
    (h0 : 0 ≤ random) : 50 ≤ calculateSimilarity recordingDuration recordingSize random := by
  unfold calculateSimilarity
  simp only []
  apply le_min _ (by norm_num)
  split_ifs <;> nlinarith

/-- C8. For every duration, size and draw `0 ≤ random < 1`, the enhanced
score is at most 80 and lies in `[0, 100]`. -/
theorem calculateSimilarity_le_80 (recordingDuration recordingSize random : ℚ)
    (h0 : 0 ≤ random) (h1 : random < 1) :
    calculateSimilarity recordingDuration recordingSize random ≤ 80 ∧
    0 ≤ calculateSimilarity recordingDuration recordingSize random ∧
    calculateSimilarity recordingDuration recordingSize random ≤ 100 := by
  have hle : calculateSimilarity recordingDuration recordingSize random ≤ 80 := by
    unfold calculateSimilarity
    exact min_le_right _ _
  have hge := calculateSimilarity_ge recordingDuration recordingSize random h0
  exact ⟨hle, by linarith, by linarith⟩

/-- C8 at a 3 second, 50000 byte recording and the draw 1/2: the score is 57.5. -/
theorem calculateSimilarity_le_80_witness :
    calculateSimilarity 3 50000 (1 / 2) = 115 / 2 ∧
    calculateSimilarity 3 50000 (1 / 2) ≤ 80 ∧
    0 ≤ calculateSimilarity 3 50000 (1 / 2) ∧
    calculateSimilarity 3 50000 (1 / 2) ≤ 100 :=
  ⟨by norm_num [calculateSimilarity],
   calculateSimilarity_le_80 3 50000 (1 / 2) (by norm_num) (by norm_num)⟩

/-- C10. For a recording of at least 7 seconds and more than 100000 bytes the
enhanced score lies in `[75, 80]` for every draw `0 ≤ random < 1`. -/
theorem calculateSimilarity_long_large (recordingDuration recordingSize random : ℚ)
    (hd : recordingDuration ≥ 7) (hs : recordingSize > 100000)
    (h0 : 0 ≤ random) (h1 : random < 1) :
    75 ≤ calculateSimilarity recordingDuration recordingSize random ∧
    calculateSimilarity recordingDuration recordingSize random ≤ 80 := by
  have h5 : recordingDuration ≥ 5 := by linarith
  unfold calculateSimilarity
  simp only [h5, hd, hs, if_true]
  refine ⟨le_min (by nlinarith) (by norm_num), min_le_right _ _⟩

/-- C10 at 7 seconds, 100001 bytes and the draw 0: the score is 80. -/
theorem calculateSimilarity_long_large_witness :
    calculateSimilarity 7 100001 0 = 80 ∧
    75 ≤ calculateSimilarity 7 100001 0 ∧ calculateSimilarity 7 100001 0 ≤ 80 :=
  ⟨by norm_num [calculateSimilarity],
   calculateSimilarity_long_large 7 100001 0 (by norm_num) (by norm_num) (by norm_num)
     (by norm_num)⟩

end WorkingVoiceCloner

/-- C9. For every duration (zero and negative ones included), every blob and
every draw `0 ≤ random < 1`, the base score lies in `[10, 95]`. -/
theorem calculateSimilarityScore_range (recordingDuration : ℚ) (audioBlob : Blob) (random : ℚ)
    (h0 : 0 ≤ random) (h1 : random < 1) :
    10 ≤ calculateSimilarityScore recordingDuration audioBlob random ∧
    calculateSimilarityScore recordingDuration audioBlob random ≤ 95 := by
  unfold calculateSimilarityScore
  exact ⟨le_min (le_max_right _ _) (by norm_num), min_le_right _ _⟩

/-- C9 at a recording of -3 seconds and the draw 1/2: the score is the floor 10. -/
theorem calculateSimilarityScore_range_witness :
    calculateSimilarityScore (-3) { data := [], type := "audio/webm" } (1 / 2) = 10 ∧
    10 ≤ calculateSimilarityScore (-3) { data := [], type := "audio/webm" } (1 / 2) ∧
    calculateSimilarityScore (-3) { data := [], type := "audio/webm" } (1 / 2) ≤ 95 :=
  ⟨by norm_num [calculateSimilarityScore],
   calculateSimilarityScore_range (-3) { data := [], type := "audio/webm" } (1 / 2)
     (by norm_num) (by norm_num)⟩

/-! ### Playback slots -/

namespace AudioPlayer

/-- A `playAudioBlob` revokes nothing: every URL that was live before the call
is live after it, and on a registered slot one more URL is live. -/
theorem playAudioBlob_live (p : AudioPlayer) (urls : ObjectURLs) (audioBlob : Blob)
    (type : String) :
    (p.playAudioBlob urls audioBlob type).2.1.live = urls.live ∨
    (p.playAudioBlob urls audioBlob type).2.1.live = urls.live ++ [urls.next] := by
  unfold playAudioBlob
  cases h : p.audioElement type with
  | none => left; rfl
  | some element => right; rfl

/-- C11 fails on the code. Two artifacts played one after the other into the
`'generated'` slot leave two live object URLs: URL `0`, created for the first
artifact, is never revoked although the slot now holds URL `1`. -/
theorem playAudioBlob_twice_leaves_two_urls :
    playAll freshPlayer noURLs
        [(enhancedArtifact, "generated"), (fallbackArtifact, "generated")] =
      ({ original := some { src := none, volume := 1 },
         generated := some { src := some 1, volume := 1 },
         currentPlaying := some "generated" },
       { next := 2, live := [0, 1] }) ∧
    (playAll freshPlayer noURLs
        [(enhancedArtifact, "generated"), (fallbackArtifact, "generated")]).2.live.length = 2 ∧
    0 ∈ (playAll freshPlayer noURLs
        [(enhancedArtifact, "generated"), (fallbackArtifact, "generated")]).2.live := by
  decide

end AudioPlayer

/-! ### Capture traces -/

namespace RecorderWorld

/-- C12 fails on the code. `startRecording` has no guard on `isRecording`:
two starts in a row leave two acquired streams with a track that was never
stopped, and a `stopRecording` after them stops the tracks of the second
stream only, so the first stream stays open. -/
theorem two_starts_leave_two_open_streams :
    (run freshWorld [RecorderEvent.startRecording firstStart,
        RecorderEvent.startRecording secondStart]).openStreams =
      [{ tracks := [10] }, { tracks := [20] }] ∧
    (run freshWorld [RecorderEvent.startRecording firstStart,
        RecorderEvent.startRecording secondStart]).recorder.audioStream =
      some { tracks := [20] } ∧
    (run freshWorld [RecorderEvent.startRecording firstStart,
        RecorderEvent.startRecording secondStart, RecorderEvent.stopRecording]).openStreams =
      [{ tracks := [10] }] ∧
    (run freshWorld [RecorderEvent.startRecording firstStart,
        RecorderEvent.startRecording secondStart,
        RecorderEvent.stopRecording]).recorder.audioStream = none := by
  decide

/-- C13 fails on the code. When the microphone is granted and `new
MediaRecorder` throws, or `start(100)` throws, `startRecording` returns after
the alert with `audioStream` still set to the acquired stream and no `stop()`
called on its track; a `stopRecording` afterwards is a no-op, so the stream
stays open. -/
theorem failed_start_leaves_stream_open :
    VoiceRecorder.startRecording freshRecorder encoderFailsStart =
      ({ freshRecorder with audioStream := some { tracks := [10] } },
       [RecorderCall.getUserMedia (some { tracks := [10] }),
        RecorderCall.newMediaRecorder (some "audio/webm;codecs=opus") none,
        RecorderCall.alert "Unable to start recording: NotSupportedError",
        RecorderCall.updateUIForRecording false]) ∧
    (run freshWorld [RecorderEvent.startRecording encoderFailsStart]).openStreams =
      [{ tracks := [10] }] ∧
    (run freshWorld [RecorderEvent.startRecording encoderFailsStart,
        RecorderEvent.stopRecording]).openStreams = [{ tracks := [10] }] ∧
    (VoiceRecorder.startRecording freshRecorder encoderStartFailsStart).1.audioStream =
      some { tracks := [10] } ∧
    (run freshWorld [RecorderEvent.startRecording encoderStartFailsStart,
        RecorderEvent.stopRecording]).openStreams = [{ tracks := [10] }] := by
  decide

/-- C14 fails on the code. A capture is started at time 0 and stopped by hand;
a second capture is started at time 3000. The timeout of the first capture,
due at 7000 and never cleared, then finds `isRecording` true and stops the
second capture, 4000 ms after its start and before 3000 + 7000. -/
theorem stale_timeout_stops_later_capture :
    (run freshWorld [RecorderEvent.startRecording firstStart, RecorderEvent.stopRecording,
        RecorderEvent.startRecording secondStart]).timeouts = [7000, 10000] ∧
    (run freshWorld [RecorderEvent.startRecording firstStart, RecorderEvent.stopRecording,
        RecorderEvent.startRecording secondStart]).recorder.isRecording = true ∧
    (run freshWorld [RecorderEvent.startRecording firstStart, RecorderEvent.stopRecording,
        RecorderEvent.startRecording secondStart]).recorder.recordingStartTime = 3000 ∧
    (run freshWorld [RecorderEvent.startRecording firstStart, RecorderEvent.stopRecording,
        RecorderEvent.startRecording secondStart,
        RecorderEvent.autoStop 7000]).recorder.isRecording = false ∧
    (VoiceRecorder.autoStop (run freshWorld [RecorderEvent.startRecording firstStart,
        RecorderEvent.stopRecording, RecorderEvent.startRecording secondStart]).recorder).2 =
      [RecorderCall.mediaRecorderStop 2, RecorderCall.clearInterval 5,
       RecorderCall.trackStop 20] ∧
    7000 < 3000 + freshRecorder.maxDuration := by
  decide

end RecorderWorld

/-! ### Text validation -/

/-- A string has length 0 exactly when it has no character. -/
theorem jsLength_eq_zero (s : String) : jsLength s = 0 ↔ s.data = [] := by
  unfold jsLength
  constructor
  · intro h
    cases hd : s.data with
    | nil => rfl
    | cons c cs =>
      rw [hd] at h
      simp only [List.map_cons, List.sum_cons] at h
      have : 1 ≤ utf16Units c := by unfold utf16Units; split <;> omega
      omega
  · intro h
    rw [h]
    rfl

/-- Trimming leaves nothing exactly when every character is white space. -/
theorem jsTrim_data_eq_nil (s : String) :
    (jsTrim s).data = [] ↔ ∀ c ∈ s.data, isJSWhiteSpace c = true := by
  unfold jsTrim
  simp only [List.reverse_eq_nil_iff, List.dropWhile_eq_nil_iff, List.mem_reverse]
  constructor
  · intro h
    have h2 : List.dropWhile isJSWhiteSpace (List.dropWhile isJSWhiteSpace s.data) = [] :=
      List.dropWhile_eq_nil_iff.mpr h
    rw [List.dropWhile_idempotent] at h2
    exact List.dropWhile_eq_nil_iff.mp h2
  · intro h c hc
    have h2 : List.dropWhile isJSWhiteSpace s.data = [] := List.dropWhile_eq_nil_iff.mpr h
    rw [h2] at hc
    cases hc

/-- The first test of `validateText` fails exactly on the texts that hold a
character other than white space. -/
theorem validateText_blank (text : String) :
    (text = "" ∨ jsLength (jsTrim text) = 0) ↔ ¬ ∃ c ∈ text.data, isJSWhiteSpace c = false := by
  rw [jsLength_eq_zero, jsTrim_data_eq_nil]
  constructor
  · rintro (h | h)
    · rw [h]; simp
    · rintro ⟨c, hc, hw⟩
      rw [h c hc] at hw
      cases hw
  · intro h
    right
    intro c hc
    by_contra hw
    exact h ⟨c, hc, by simpa using hw⟩

/-- C15. `validateText(text).isValid` is true exactly when `text` holds a
character other than white space and `text.length` is at most 1000; such a
text of length exactly 1000 is accepted, and one of length 1001 is rejected
with the message `'Text too long (max 1000 characters)'`. -/
theorem validateText_spec (text : String) :
    ((validateText text).isValid = true ↔
      (∃ c ∈ text.data, isJSWhiteSpace c = false) ∧ jsLength text ≤ 1000) ∧
    ((∃ c ∈ text.data, isJSWhiteSpace c = false) → jsLength text = 1000 →
      (validateText text).isValid = true) ∧
    ((∃ c ∈ text.data, isJSWhiteSpace c = false) → jsLength text = 1001 →
      validateText text =
        { isValid := false, message := "Text too long (max 1000 characters)" }) := by
  have hb := validateText_blank text
  refine ⟨?_, ?_, ?_⟩
  · unfold validateText
    by_cases h1 : text = "" ∨ jsLength (jsTrim text) = 0
    · have hn := hb.mp h1
      simp only [h1, if_true]
      constructor
      · intro h; cases h
      · intro h; exact absurd h.1 hn
    · have hn : ∃ c ∈ text.data, isJSWhiteSpace c = false := by
        by_contra hc
        exact h1 (hb.mpr hc)
      simp only [h1, if_false]
      by_cases h2 : jsLength text > 1000
      · simp only [h2, if_true]
        constructor
        · intro h; cases h
        · intro h; omega
      · simp only [h2, if_false]
        constructor
        · intro _; exact ⟨hn, by omega⟩
        · intro _; trivial
  · intro hn hlen
    have h1 : ¬ (text = "" ∨ jsLength (jsTrim text) = 0) := fun h => hb.mp h hn
    have h2 : ¬ (jsLength text > 1000) := by omega
    unfold validateText
    simp only [h1, h2, if_false]
  · intro hn hlen
    have h1 : ¬ (text = "" ∨ jsLength (jsTrim text) = 0) := fun h => hb.mp h hn
    have h2 : jsLength text > 1000 := by omega
    unfold validateText
    simp only [h1, h2, if_false, if_true]

/-- A text of `n` letters `a` has length `n`. -/
theorem jsLength_replicate (n : Nat) : jsLength (String.mk (List.replicate n 'a')) = n := by
  unfold jsLength
  induction n with
  | zero => rfl
  | succ k ih =>
    have hu : utf16Units 'a' = 1 := by decide
    simp only [List.replicate_succ, List.map_cons, List.sum_cons, hu] at ih ⊢
    omega

/-- The text of 1000 letters has length 1000. -/
theorem jsLength_text1000 : jsLength text1000 = 1000 := jsLength_replicate 1000

/-- The text of 1001 letters has length 1001. -/
theorem jsLength_text1001 : jsLength text1001 = 1001 := jsLength_replicate 1001

/-- The letter `a` occurs in the text of 1000 letters. -/
theorem mem_text1000 : 'a' ∈ text1000.data :=
  List.mem_replicate.mpr ⟨by decide, rfl⟩

/-- The letter `a` occurs in the text of 1001 letters. -/
theorem mem_text1001 : 'a' ∈ text1001.data :=
  List.mem_replicate.mpr ⟨by decide, rfl⟩

/-- C15 at the texts of 1000 and of 1001 letters `a`. -/
theorem validateText_spec_witness :
    (validateText text1000).isValid = true ∧
    validateText text1001 =
      { isValid := false, message := "Text too long (max 1000 characters)" } :=
  ⟨(validateText_spec text1000).2.1 ⟨'a', mem_text1000, by decide⟩ jsLength_text1000,
   (validateText_spec text1001).2.2 ⟨'a', mem_text1001, by decide⟩ jsLength_text1001⟩

/-! ### Generation and the length limit -/

namespace VoiceSimulator

/-- The calls of the `catch` block come after the calls made before it. -/
theorem catchBlock_calls (s : VoiceSimulator) (env : Env) (text : String)
    (calls : List SimulatorCall) : calls <+: (catchBlock s env text calls).2 := by
  unfold catchBlock
  cases env.fallback with
  | pending => simp
  | threw => simp [finallyBlock, List.append_assoc]
  | resolved artifact =>
    cases artifact with
    | none => simp [finallyBlock, List.append_assoc]
    | some blob => simp [finallyBlock, List.append_assoc]

/-- The calls made after the strategy has fulfilled come after the calls made
before it. -/
theorem afterGeneration_calls (s : VoiceSimulator) (env : Env) (recordedAudio : Blob)
    (text : String) (artifact : Option Blob) (calls : List SimulatorCall) :
    calls <+: (afterGeneration s env recordedAudio text artifact calls).2 := by
  unfold afterGeneration
  cases artifact with
  | none => exact catchBlock_calls s env text calls
  | some blob =>
    by_cases hsize : blob.size > 0
    · simp only [hsize, if_true]
      cases hreal : env.realVoiceCloner with
      | undeclared =>
        exact (List.prefix_append calls _).trans (catchBlock_calls s env text _)
      | declared real =>
        cases real with
        | none => simp [finallyBlock, List.append_assoc]
        | some cloner =>
          simp only [finallyBlock]
          split_ifs <;> simp [List.append_assoc]
    · simp only [hsize, if_false]
      exact catchBlock_calls s env text calls

/-- A request with a recording and a text that is not empty after trimming,
made while not processing, is dispatched: the first calls are `showLoading`
and the await of the selected strategy on the trimmed text. -/
theorem generateVoiceClone_dispatches (s : VoiceSimulator) (env : Env)
    (hs : s.isProcessing = false)
    (hrec : env.voiceRecorder.getRecordedAudio ≠ none)
    (htext : TextInput.getText env.textValue ≠ "") :
    ∃ rest, (generateVoiceClone s env).2 =
      SimulatorCall.showLoading ::
        SimulatorCall.strategy (selectStrategy env) (TextInput.getText env.textValue)
          env.mood env.pitch :: rest := by
  unfold generateVoiceClone
  cases hr : env.voiceRecorder.getRecordedAudio with
  | none => exact absurd hr hrec
  | some recordedAudio =>
    simp only [hs, htext, if_false, Bool.false_eq_true]
    cases env.primary with
    | pending => exact ⟨[], rfl⟩
    | threw =>
      obtain ⟨rest, hrest⟩ := catchBlock_calls { s with isProcessing := true } env
        (TextInput.getText env.textValue)
        [SimulatorCall.showLoading,
         SimulatorCall.strategy (selectStrategy env) (TextInput.getText env.textValue)
           env.mood env.pitch]
      exact ⟨rest, hrest.symm⟩
    | resolved artifact =>
      obtain ⟨rest, hrest⟩ := afterGeneration_calls
        { s with isProcessing := true, generatedAudio := artifact } env recordedAudio
        (TextInput.getText env.textValue) artifact
        [SimulatorCall.showLoading,
         SimulatorCall.strategy (selectStrategy env) (TextInput.getText env.textValue)
           env.mood env.pitch]
      exact ⟨rest, hrest.symm⟩

set_option maxRecDepth 100000 in
/-- C16 as stated fails: in the shipped configuration a request whose text has
1001 characters raises no alert, awaits generation strategies on that text
and replaces `generatedAudio`. -/
theorem long_text_counterexample :
    jsLength (TextInput.getText longTextEnv.textValue) = 1001 ∧
    generateVoiceClone readySimulator longTextEnv =
      ({ generatedAudio := some fallbackArtifact, isProcessing := false,
         similarityScoreText := SimilarityText.simulationMode,
         similarityScoreClassName := "similarity-score", downloadBtnDisabled := false },
       [SimulatorCall.showLoading,
        SimulatorCall.strategy Strategy.workingGenerateVoiceClone text1001 "happy" 1,
        SimulatorCall.playAudioBlob enhancedArtifact "generated",
        SimulatorCall.strategy Strategy.basicFallbackTTS text1001 "happy" 1,
        SimulatorCall.playAudioBlob fallbackArtifact "generated",
        SimulatorCall.hideLoading]) ∧
    (generateVoiceClone readySimulator longTextEnv).1.generatedAudio ≠
      readySimulator.generatedAudio := by
  decide

/-- C16, amended. `generateVoiceClone` does not apply the limit of 1000
characters: for every request made while not processing, with a recording
present and a trimmed text longer than 1000 characters, no validation error
is raised; the call shows the loading overlay and awaits the selected
strategy on that text, so some strategy is invoked. -/
theorem generateVoiceClone_long_text (s : VoiceSimulator) (env : Env)
    (hs : s.isProcessing = false)
    (hrec : env.voiceRecorder.getRecordedAudio ≠ none)
    (hlen : jsLength (TextInput.getText env.textValue) > 1000) :
    (∃ rest, (generateVoiceClone s env).2 =
      SimulatorCall.showLoading ::
        SimulatorCall.strategy (selectStrategy env) (TextInput.getText env.textValue)
          env.mood env.pitch :: rest) ∧
    ∃ c ∈ (generateVoiceClone s env).2, c.isStrategy = true := by
  have htext : TextInput.getText env.textValue ≠ "" := by
    intro h
    rw [h] at hlen
    exact absurd hlen (by decide)
  obtain ⟨rest, hrest⟩ := generateVoiceClone_dispatches s env hs hrec htext
  refine ⟨⟨rest, hrest⟩, ?_⟩
  rw [hrest]
  exact ⟨_, List.mem_cons_of_mem _ (List.mem_cons_self _ _), rfl⟩

/-- Trimming a text of `n` letters `a` leaves it as it is. -/
theorem jsTrim_replicate (n : Nat) :
    jsTrim (String.mk (List.replicate n 'a')) = String.mk (List.replicate n 'a') := by
  have hp : isJSWhiteSpace 'a' = false := by decide
  simp [jsTrim, List.dropWhile_replicate, hp]

/-- The trimmed text of 1001 letters is the text itself. -/
theorem getText_text1001 : TextInput.getText text1001 = text1001 := jsTrim_replicate 1001

/-- C16, amended, at the shipped configuration with a text of 1001 letters. -/
theorem generateVoiceClone_long_text_witness :
    jsLength (TextInput.getText longTextEnv.textValue) = 1001 ∧
    ∃ c ∈ (generateVoiceClone readySimulator longTextEnv).2, c.isStrategy = true :=
  ⟨by
    show jsLength (TextInput.getText text1001) = 1001
    rw [getText_text1001]
    exact jsLength_text1001,
   (generateVoiceClone_long_text readySimulator longTextEnv rfl (by decide) (by
      show jsLength (TextInput.getText text1001) > 1000
      rw [getText_text1001, jsLength_text1001]
      decide)).2⟩

end VoiceSimulator

/-! ### Mood settings -/

/-- The settings `applyVoiceSettings` leaves, by mood. -/
theorem applyVoiceSettings_settings (utterance : Utterance) (voices : List Voice)
    (mood : String) (p : ℚ) :
    (WorkingVoiceCloner.applyVoiceSettings utterance voices mood p).settings =
      if mood = "happy" then (1.1, min (p + 0.2) 2.0, 0.9)
      else if mood = "sad" then (0.8, max (p - 0.1) 0.5, 0.7)
      else if mood = "robotic" then (0.9, 1.0, 0.8)
      else (1.0, p, 0.8) := by
  unfold WorkingVoiceCloner.applyVoiceSettings Utterance.settings
  simp only []
  split_ifs <;> rfl

/-- The settings `setupUtterance` leaves, by mood. -/
theorem setupUtterance_settings (utterance : Utterance) (voices : List Voice)
    (mood : String) (p : ℚ) :
    (VoiceSimulator.setupUtterance utterance voices mood p).settings =
      if mood = "happy" then (1.15, min (p + 0.15) 2.0, 0.9)
      else if mood = "sad" then (0.85, max (p - 0.1) 0.5, 0.8)
      else if mood = "robotic" then (0.95, 1.0, 0.85)
      else (1.0, p, 0.85) := by
  unfold VoiceSimulator.setupUtterance Utterance.settings
  simp only []
  split_ifs <;> rfl

/-- C17. For every input pitch `p`, utterance and list of voices, the
enhanced `applyVoiceSettings` and the basic `setupUtterance` set (rate,
pitch, volume) to: happy (1.1 resp. 1.15, min(p+0.2, 2.0) resp.
min(p+0.15, 2.0), 0.9); sad (0.8 resp. 0.85, max(p-0.1, 0.5), 0.7 resp. 0.8);
robotic (0.9 resp. 0.95, 1.0, 0.8 resp. 0.85); normal and every other mood
(1.0, p, 0.8 resp. 0.85). -/
theorem mood_settings_table (utterance : Utterance) (voices : List Voice) (mood : String)
    (p : ℚ) :
    (WorkingVoiceCloner.applyVoiceSettings utterance voices "happy" p).settings =
      (1.1, min (p + 0.2) 2.0, 0.9) ∧
    (VoiceSimulator.setupUtterance utterance voices "happy" p).settings =
      (1.15, min (p + 0.15) 2.0, 0.9) ∧
    (WorkingVoiceCloner.applyVoiceSettings utterance voices "sad" p).settings =
      (0.8, max (p - 0.1) 0.5, 0.7) ∧
    (VoiceSimulator.setupUtterance utterance voices "sad" p).settings =
      (0.85, max (p - 0.1) 0.5, 0.8) ∧
    (WorkingVoiceCloner.applyVoiceSettings utterance voices "robotic" p).settings =
      (0.9, 1.0, 0.8) ∧
    (VoiceSimulator.setupUtterance utterance voices "robotic" p).settings =
      (0.95, 1.0, 0.85) ∧
    (WorkingVoiceCloner.applyVoiceSettings utterance voices "normal" p).settings =
      (1.0, p, 0.8) ∧
    (VoiceSimulator.setupUtterance utterance voices "normal" p).settings =
      (1.0, p, 0.85) ∧
    (mood ≠ "happy" → mood ≠ "sad" → mood ≠ "robotic" →
      (WorkingVoiceCloner.applyVoiceSettings utterance voices mood p).settings =
        (1.0, p, 0.8) ∧
      (VoiceSimulator.setupUtterance utterance voices mood p).settings =
        (1.0, p, 0.85)) := by
  have hsh : ("sad" : String) ≠ "happy" := by decide
  have hrh : ("robotic" : String) ≠ "happy" := by decide
  have hrs : ("robotic" : String) ≠ "sad" := by decide
  have hnh : ("normal" : String) ≠ "happy" := by decide
  have hns : ("normal" : String) ≠ "sad" := by decide
  have hnr : ("normal" : String) ≠ "robotic" := by decide
  refine ⟨?_, ?_, ?_, ?_, ?_, ?_, ?_, ?_, ?_⟩
  · rw [applyVoiceSettings_settings, if_pos rfl]
  · rw [setupUtterance_settings, if_pos rfl]
  · rw [applyVoiceSettings_settings, if_neg hsh, if_pos rfl]
  · rw [setupUtterance_settings, if_neg hsh, if_pos rfl]
  · rw [applyVoiceSettings_settings, if_neg hrh, if_neg hrs, if_pos rfl]
  · rw [setupUtterance_settings, if_neg hrh, if_neg hrs, if_pos rfl]
  · rw [applyVoiceSettings_settings, if_neg hnh, if_neg hns, if_neg hnr]
  · rw [setupUtterance_settings, if_neg hnh, if_neg hns, if_neg hnr]
  · intro h1 h2 h3
    rw [applyVoiceSettings_settings, setupUtterance_settings, if_neg h1, if_neg h2, if_neg h3,
      if_neg h1, if_neg h2, if_neg h3]
    exact ⟨rfl, rfl⟩

/-- C17 at the text "Hello world", the voices of `sampleVoices`, pitch 1.3
and a mood the selector does not offer. -/
theorem mood_settings_table_witness :
    (WorkingVoiceCloner.applyVoiceSettings (Utterance.new "Hello world") sampleVoices
        "angry" 1.3).settings = (1.0, 1.3, 0.8) ∧
    (VoiceSimulator.setupUtterance (Utterance.new "Hello world") sampleVoices
        "angry" 1.3).settings = (1.0, 1.3, 0.85) ∧
    (WorkingVoiceCloner.applyVoiceSettings (Utterance.new "Hello world") sampleVoices
        "angry" 1.3).voice = some { name := "Samantha", lang := "en-US" } :=
  ⟨((mood_settings_table (Utterance.new "Hello world") sampleVoices "angry" 1.3).2.2.2.2.2.2.2.2
      (by decide) (by decide) (by decide)).1,
   ((mood_settings_table (Utterance.new "Hello world") sampleVoices "angry" 1.3).2.2.2.2.2.2.2.2
      (by decide) (by decide) (by decide)).2,
   by decide⟩

/-- C18. For mood happy and every input pitch `p` in `[0.5, 2.0]`, the pitch
`q` set by `applyVoiceSettings` and the one set by `setupUtterance` satisfy
`p ≤ q ≤ 2.0`, and the rate set lies in `[1.1, 1.15]`. -/
theorem happy_pitch_bounds (utterance : Utterance) (voices : List Voice) (p : ℚ)
    (hlo : 0.5 ≤ p) (hhi : p ≤ 2.0) :
    (p ≤ (WorkingVoiceCloner.applyVoiceSettings utterance voices "happy" p).pitch ∧
      (WorkingVoiceCloner.applyVoiceSettings utterance voices "happy" p).pitch ≤ 2.0 ∧
      1.1 ≤ (WorkingVoiceCloner.applyVoiceSettings utterance voices "happy" p).rate ∧
      (WorkingVoiceCloner.applyVoiceSettings utterance voices "happy" p).rate ≤ 1.15) ∧
    (p ≤ (VoiceSimulator.setupUtterance utterance voices "happy" p).pitch ∧
      (VoiceSimulator.setupUtterance utterance voices "happy" p).pitch ≤ 2.0 ∧
      1.1 ≤ (VoiceSimulator.setupUtterance utterance voices "happy" p).rate ∧
      (VoiceSimulator.setupUtterance utterance voices "happy" p).rate ≤ 1.15) := by
  have h1 := applyVoiceSettings_settings utterance voices "happy" p
  have h2 := setupUtterance_settings utterance voices "happy" p
  rw [if_pos rfl] at h1 h2
  simp only [Utterance.settings, Prod.mk.injEq] at h1 h2
  obtain ⟨hr1, hp1, _⟩ := h1
  obtain ⟨hr2, hp2, _⟩ := h2
  rw [hr1, hp1, hr2, hp2]
  refine ⟨⟨le_min (by linarith) hhi, min_le_right _ _, le_refl _, by norm_num⟩,
    ⟨le_min (by linarith) hhi, min_le_right _ _, by norm_num, le_refl _⟩⟩

/-- C18 at the pitch 1.0: the pitch set is 1.2 resp. 1.15. -/
theorem happy_pitch_bounds_witness :
    (WorkingVoiceCloner.applyVoiceSettings (Utterance.new "Hello world") sampleVoices
        "happy" 1.0).pitch = 1.2 ∧
    (VoiceSimulator.setupUtterance (Utterance.new "Hello world") sampleVoices
        "happy" 1.0).pitch = 1.15 ∧
    (1.0 : ℚ) ≤ (WorkingVoiceCloner.applyVoiceSettings (Utterance.new "Hello world")
        sampleVoices "happy" 1.0).pitch ∧
    (VoiceSimulator.setupUtterance (Utterance.new "Hello world") sampleVoices
        "happy" 1.0).pitch ≤ 2.0 :=
  ⟨by
    have h := applyVoiceSettings_settings (Utterance.new "Hello world") sampleVoices "happy" 1.0
    rw [if_pos rfl] at h
    simp only [Utterance.settings, Prod.mk.injEq] at h
    rw [h.2.1]
    norm_num,
   by
    have h := setupUtterance_settings (Utterance.new "Hello world") sampleVoices "happy" 1.0
    rw [if_pos rfl] at h
    simp only [Utterance.settings, Prod.mk.injEq] at h
    rw [h.2.1]
    norm_num,
   (happy_pitch_bounds (Utterance.new "Hello world") sampleVoices 1.0 (by norm_num)
      (by norm_num)).1.1,
   (happy_pitch_bounds (Utterance.new "Hello world") sampleVoices 1.0 (by norm_num)
      (by norm_num)).2.2.1⟩

/-! ### The cloner -/

namespace WorkingVoiceCloner

/-- C19 fails on the code. `getApiKey` returns the placeholder
`'YOUR_ELEVENLABS_API_KEY'`, but `initializeRealCloning` compares the key with
another constant, so the check succeeds: a constructed `WorkingVoiceCloner`
has `useRealCloning` true and the placeholder as its `apiKey`. -/
theorem shipped_cloner_uses_real_cloning :
    WorkingVoiceCloner.new.getApiKey = placeholderApiKey ∧
    WorkingVoiceCloner.new.useRealCloning = true ∧
    WorkingVoiceCloner.new.apiKey = some "YOUR_ELEVENLABS_API_KEY" := by
  decide

/-- C20. For either value of `useRealCloning` and every recording, text, mood
and pitch, `generateVoiceClone` ends exactly as `generateEnhancedSimulation`
does on the same arguments, and it fulfils: the error thrown on the real-API
path is caught inside `generateWithRealAPI` and never reaches the caller. -/
theorem cloner_generateVoiceClone_eq_simulation (c : WorkingVoiceCloner) (voices : List Voice)
    (recordedBlob : Blob) (text mood : String) (pitch : ℚ) :
    c.generateVoiceClone voices recordedBlob text mood pitch =
      c.generateEnhancedSimulation voices recordedBlob text mood pitch ∧
    c.generateWithRealAPI voices recordedBlob text mood pitch =
      c.generateEnhancedSimulation voices recordedBlob text mood pitch ∧
    ∃ synthesis, c.generateVoiceClone voices recordedBlob text mood pitch =
      Except.ok synthesis := by
  have hreal : c.generateWithRealAPI voices recordedBlob text mood pitch =
      c.generateEnhancedSimulation voices recordedBlob text mood pitch := rfl
  have hgen : c.generateVoiceClone voices recordedBlob text mood pitch =
      c.generateEnhancedSimulation voices recordedBlob text mood pitch := by
    unfold generateVoiceClone
    split_ifs
    · exact hreal
    · rfl
  exact ⟨hgen, hreal, ⟨_, by rw [hgen]; rfl⟩⟩

end WorkingVoiceCloner

/-! ### Download filename -/

/-- A unit below 128 is the code of the character made from it. -/
theorem toNat_ofNat_of_lt (u : Nat) (h : u < 128) : (Char.ofNat u).toNat = u := by
  have hv : u.isValidChar := Or.inl (by omega)
  simp only [Char.ofNat, hv, Char.ofNatAux, Char.toNat, dif_pos]
  rfl

/-- The `length` of a string is the number of its code units. -/
theorem jsLength_eq_length (s : String) : jsLength s = (jsUnits s).length := by
  unfold jsLength jsUnits
  induction s.data with
  | nil => rfl
  | cons c cs ih =>
    have hc : utf16Units c = (utf16Encode c).length := by
      unfold utf16Units utf16Encode
      split_ifs <;> first | rfl | omega
    simp only [List.map_cons, List.sum_cons, List.flatMap_cons, List.length_append, ih, hc]

/-- A string made from units below 128 has exactly those code units. -/
theorem jsUnits_stringOfUnits (units : List Nat) (h : ∀ u ∈ units, u < 128) :
    jsUnits (stringOfUnits units) = units := by
  unfold jsUnits stringOfUnits
  induction units with
  | nil => rfl
  | cons u us ih =>
    have hu : u < 128 := h u (List.mem_cons_self _ _)
    have hus : ∀ v ∈ us, v < 128 := fun v hv => h v (List.mem_cons_of_mem _ hv)
    have he : utf16Encode (Char.ofNat u) = [u] := by
      unfold utf16Encode
      rw [toNat_ofNat_of_lt u hu]
      have : u < 0x10000 := by omega
      simp [this]
    simp only [List.map_cons, List.flatMap_cons, he] at ih ⊢
    rw [ih hus]
    rfl

/-- An ASCII letter or digit is below 128. -/
theorem isAsciiAlnumUnit_lt (u : Nat) (h : isAsciiAlnumUnit u = true) : u < 128 := by
  unfold isAsciiAlnumUnit at h
  simp only [Bool.or_eq_true, Bool.and_eq_true, decide_eq_true_eq] at h
  omega

namespace VoiceSimulator

/-- Every unit of the sanitized excerpt is an ASCII letter, a digit or `_`. -/
theorem shortTextUnits_mem (text : String) (u : Nat) (hu : u ∈ shortTextUnits text) :
    isAsciiAlnumUnit u = true ∨ u = 95 := by
  unfold shortTextUnits at hu
  obtain ⟨v, _, hv⟩ := List.mem_map.mp hu
  by_cases h : isAsciiAlnumUnit v = true
  · left
    rw [if_pos h] at hv
    rw [← hv]
    exact h
  · right
    rw [if_neg h] at hv
    exact hv.symm

/-- The units of the sanitized excerpt are below 128. -/
theorem shortTextUnits_lt (text : String) : ∀ u ∈ shortTextUnits text, u < 128 := by
  intro u hu
  rcases shortTextUnits_mem text u hu with h | h
  · exact isAsciiAlnumUnit_lt u h
  · omega

/-- The code units of `shortText` are the sanitized units. -/
theorem jsUnits_shortText (text : String) : jsUnits (shortText text) = shortTextUnits text :=
  jsUnits_stringOfUnits _ (shortTextUnits_lt text)

/-- C21. For every text and timestamp `t`, the filename is `'voiceclone_' + s +
'_' + t + '.wav'`, where `s` has length `min(20, text.length)`, every
character of `s` is an ASCII letter, an ASCII digit or `_`, and each of the
first 20 code units of the text that is an ASCII letter or digit stands
unchanged at the same position in `s`; `downloadGeneratedAudio` hands this
filename, built from the trimmed text, to `downloadAudio`. -/
theorem downloadFilename_spec (text : String) (now : Nat) :
    downloadFilename text now =
      "voiceclone_" ++ shortText text ++ "_" ++ toString now ++ ".wav" ∧
    jsLength (shortText text) = min 20 (jsLength text) ∧
    (∀ c ∈ (shortText text).data, isAsciiAlnumUnit c.toNat = true ∨ c = '_') ∧
    (∀ i u, i < 20 → (jsUnits text)[i]? = some u → isAsciiAlnumUnit u = true →
      (jsUnits (shortText text))[i]? = some u) ∧
    (∀ (s : VoiceSimulator) (blob : Blob) (value : String), s.generatedAudio = some blob →
      downloadGeneratedAudio s value now =
        [SimulatorCall.downloadAudio blob (downloadFilename (TextInput.getText value) now),
         SimulatorCall.showDownloadConfirmation]) := by
  refine ⟨rfl, ?_, ?_, ?_, ?_⟩
  · rw [jsLength_eq_length, jsLength_eq_length, jsUnits_shortText]
    unfold shortTextUnits
    rw [List.length_map, List.length_take]
  · intro c hc
    unfold shortText stringOfUnits at hc
    obtain ⟨u, hu, huc⟩ := List.mem_map.mp hc
    rcases shortTextUnits_mem text u hu with h | h
    · left
      rw [← huc, toNat_ofNat_of_lt u (isAsciiAlnumUnit_lt u h)]
      exact h
    · right
      rw [← huc, h]
  · intro i u hi hget halnum
    rw [jsUnits_shortText]
    unfold shortTextUnits
    rw [List.getElem?_map, List.getElem?_take_of_lt hi, hget]
    simp [halnum]
  · intro s blob value hs
    unfold downloadGeneratedAudio
    rw [hs]

/-- C21 at the text "Hello, world! 123" and the timestamp 1700000000000. -/
theorem downloadFilename_spec_witness :
    downloadFilename "Hello, world! 123" 1700000000000 =
      "voiceclone_Hello__world__123_1700000000000.wav" ∧
    (jsUnits (shortText "Hello, world! 123"))[4]? = some 111 ∧
    downloadGeneratedAudio completedSimulator "  Hello, world! 123 " 1700000000000 =
      [SimulatorCall.downloadAudio enhancedArtifact
          "voiceclone_Hello__world__123_1700000000000.wav",
       SimulatorCall.showDownloadConfirmation] :=
  ⟨by decide,
   (downloadFilename_spec "Hello, world! 123" 1700000000000).2.2.2.1 4 111 (by decide)
     (by decide) (by decide),
   by decide⟩

end VoiceSimulator

/-! ### Volume -/

namespace AudioPlayer

/-- C22. On a player whose two elements exist, for every number `v`,
`setVolume(v)` ends normally and sets the volume of both elements to the same
value `max(0, min(1, v))`, which lies in `[0, 1]`, leaving everything else as
it was; a value already in `[0, 1]` is set as it is, and calling `setVolume`
again with the clamped value changes nothing. -/
theorem setVolume_clamps (p : AudioPlayer) (original generated : AudioElement) (v : ℚ)
    (ho : p.original = some original) (hg : p.generated = some generated) :
    p.setVolume v =
      ({ p with
          original := some { original with volume := max 0 (min 1 v) },
          generated := some { generated with volume := max 0 (min 1 v) } }, none) ∧
    (0 : ℚ) ≤ max 0 (min 1 v) ∧ max 0 (min 1 v) ≤ (1 : ℚ) ∧
    (0 ≤ v → v ≤ 1 → max 0 (min 1 v) = v) ∧
    (p.setVolume v).1.setVolume (max 0 (min 1 v)) = p.setVolume v := by
  have hrange : (0 : ℚ) ≤ max 0 (min 1 v) ∧ max 0 (min 1 v) ≤ (1 : ℚ) :=
    ⟨le_max_left _ _, max_le (by norm_num) (min_le_left _ _)⟩
  have hfix : ∀ w : ℚ, 0 ≤ w → w ≤ 1 → max 0 (min 1 w) = w := by
    intro w h0 h1
    rw [min_eq_right h1, max_eq_right h0]
  have hset : p.setVolume v =
      ({ p with
          original := some { original with volume := max 0 (min 1 v) },
          generated := some { generated with volume := max 0 (min 1 v) } }, none) := by
    unfold setVolume
    simp only [ho, hg]
  refine ⟨hset, hrange.1, hrange.2, hfix v, ?_⟩
  rw [hset]
  unfold setVolume
  simp only [hfix _ hrange.1 hrange.2]

/-- C22 at `freshPlayer` and the volumes 3/2 and -1, which are set as 1 and 0. -/
theorem setVolume_clamps_witness :
    freshPlayer.setVolume (3 / 2) =
      ({ original := some { src := none, volume := 1 },
         generated := some { src := none, volume := 1 }, currentPlaying := none }, none) ∧
    (freshPlayer.setVolume (-1)).1.generated = some { src := none, volume := 0 } ∧
    (freshPlayer.setVolume (3 / 2)).1.setVolume (max 0 (min 1 (3 / 2))) =
      freshPlayer.setVolume (3 / 2) :=
  ⟨by
    rw [(setVolume_clamps freshPlayer { src := none, volume := 1 } { src := none, volume := 1 }
      (3 / 2) rfl rfl).1]
    norm_num [freshPlayer],
   by
    rw [(setVolume_clamps freshPlayer { src := none, volume := 1 } { src := none, volume := 1 }
      (-1) rfl rfl).1]
    norm_num,
   (setVolume_clamps freshPlayer { src := none, volume := 1 } { src := none, volume := 1 }
      (3 / 2) rfl rfl).2.2.2.2⟩

end AudioPlayer

/-! ### Chunks and the recorded artifact -/

namespace VoiceRecorder

/-- Delivering chunks appends those of positive size, in arrival order. -/
theorem audioChunks_foldl_dataAvailable (chunks : List Blob) (r : VoiceRecorder) :
    (chunks.foldl dataAvailable r).audioChunks =
      r.audioChunks ++ chunks.filter (fun chunk => decide (chunk.size > 0)) := by
  induction chunks generalizing r with
  | nil => simp
  | cons chunk rest ih =>
    rw [List.foldl_cons, ih]
    unfold dataAvailable
    by_cases h : chunk.size > 0
    · simp [h, List.filter_cons]
    · simp [h, List.filter_cons]

/-- The size of a concatenation is the sum of the sizes of its parts. -/
theorem size_concat (parts : List Blob) (type : String) :
    (Blob.concat parts type).size = (parts.map Blob.size).sum := by
  unfold Blob.concat Blob.size
  induction parts with
  | nil => rfl
  | cons part rest ih =>
    simp only [List.flatMap_cons, List.length_append, List.map_cons, List.sum_cons] at ih ⊢
    rw [ih]

/-- The artifact `handleRecordingStop` stores is the concatenation of the
collected chunks, typed by the first of them. -/
theorem handleRecordingStop_recordedAudio (r : VoiceRecorder) (now : Nat) (urls : ObjectURLs)
    (originalAudio : Bool) :
    (handleRecordingStop r now urls originalAudio).1.recordedAudio =
      some (Blob.concat r.audioChunks
        (match r.audioChunks with
          | first :: _ => if first.type ≠ "" then first.type else "audio/webm"
          | [] => "audio/webm")) := by
  unfold handleRecordingStop
  cases originalAudio <;> rfl

/-- C23. For every sequence of chunks delivered to a capture (which starts
with no chunk collected), exactly the chunks of size above 0 are collected,
in arrival order; `handleRecordingStop` then stores one artifact whose bytes
are those of the collected chunks in that order, whose size is the sum of
their sizes, and whose type is the type of the first collected chunk when
there is one and its type is not empty, and `'audio/webm'` otherwise. -/
theorem recorded_artifact_spec (r : VoiceRecorder) (chunks : List Blob) (now : Nat)
    (urls : ObjectURLs) (originalAudio : Bool) (hstart : r.audioChunks = []) :
    (chunks.foldl dataAvailable r).audioChunks =
      chunks.filter (fun chunk => decide (chunk.size > 0)) ∧
    ∃ artifact : Blob,
      (handleRecordingStop (chunks.foldl dataAvailable r) now urls originalAudio).1.recordedAudio
        = some artifact ∧
      artifact.data =
        (chunks.filter (fun chunk => decide (chunk.size > 0))).flatMap Blob.data ∧
      artifact.size =
        ((chunks.filter (fun chunk => decide (chunk.size > 0))).map Blob.size).sum ∧
      artifact.type =
        (match (chunks.filter (fun chunk => decide (chunk.size > 0))).head? with
          | some first => if first.type ≠ "" then first.type else "audio/webm"
          | none => "audio/webm") := by
  have hcollected : (chunks.foldl dataAvailable r).audioChunks =
      chunks.filter (fun chunk => decide (chunk.size > 0)) := by
    rw [audioChunks_foldl_dataAvailable, hstart, List.nil_append]
  refine ⟨hcollected, _, handleRecordingStop_recordedAudio _ now urls originalAudio, ?_, ?_, ?_⟩
  · rw [hcollected]
    rfl
  · rw [size_concat, hcollected]
  · rw [hcollected]
    cases chunks.filter (fun chunk => decide (chunk.size > 0)) <;> rfl

/-- C23 at a capture started on a fresh recorder and the four chunks of
`sampleChunks`: the empty one is left out and the artifact holds 6 bytes. -/
theorem recorded_artifact_spec_witness :
    (sampleChunks.foldl dataAvailable (startRecording freshRecorder firstStart).1).audioChunks =
      [{ data := [26, 69], type := "audio/webm;codecs=opus" },
       { data := [223], type := "audio/webm;codecs=opus" },
       { data := [163, 1, 0], type := "audio/webm;codecs=opus" }] ∧
    (handleRecordingStop
        (sampleChunks.foldl dataAvailable (startRecording freshRecorder firstStart).1)
        2500 noURLs true).1.recordedAudio =
      some { data := [26, 69, 223, 163, 1, 0], type := "audio/webm;codecs=opus" } ∧
    (sampleChunks.foldl dataAvailable (startRecording freshRecorder firstStart).1).audioChunks =
      sampleChunks.filter (fun chunk => decide (chunk.size > 0)) :=
  ⟨by decide, by decide,
   (recorded_artifact_spec (startRecording freshRecorder firstStart).1 sampleChunks 2500 noURLs
      true (by decide)).1⟩

end VoiceRecorder

/-! ### Simulated delay -/

/-- `setupUtterance` leaves the text of the utterance as it is. -/
theorem setupUtterance_text (utterance : Utterance) (voices : List Voice) (mood : String)
    (p : ℚ) : (VoiceSimulator.setupUtterance utterance voices mood p).text = utterance.text := by
  unfold VoiceSimulator.setupUtterance
  simp only []
  split_ifs <;> split <;> rfl

/-- The delay of the basic tier for a text. -/
theorem basic_delay (text : String) (voices : List Voice) (mood : String) (p : ℚ)
    (generatedAt : String) :
    (VoiceSimulator.speakAndResolve
        (VoiceSimulator.setupUtterance (Utterance.new text) voices mood p) generatedAt).delay =
      max 2000 (jsLength text * 50) := by
  unfold VoiceSimulator.speakAndResolve
  simp only [setupUtterance_text]
  rfl

/-- The text of 60 letters has length 60. -/
theorem jsLength_text60 : jsLength text60 = 60 := jsLength_replicate 60

/-- The text of 61 letters has length 61. -/
theorem jsLength_text61 : jsLength text61 = 61 := jsLength_replicate 61

/-- C24 as stated fails for the enhanced tier: the texts of 60 and of 61
letters both have a proportional term above the floor (3000 and 3050), and
the delay of `createRealisticAudioBlob` is 2500 ms for both, so it does not
increase with the length. -/
theorem enhanced_delay_counterexample :
    jsLength text60 = 60 ∧ jsLength text61 = 61 ∧ 2000 < jsLength text60 * 50 ∧
    (WorkingVoiceCloner.createRealisticAudioBlob
      (WorkingVoiceCloner.applyVoiceSettings (Utterance.new text60) sampleVoices "normal"
        1)).delay = 2500 ∧
    (WorkingVoiceCloner.createRealisticAudioBlob
      (WorkingVoiceCloner.applyVoiceSettings (Utterance.new text61) sampleVoices "normal"
        1)).delay = 2500 ∧
    ¬ ((WorkingVoiceCloner.createRealisticAudioBlob
        (WorkingVoiceCloner.applyVoiceSettings (Utterance.new text60) sampleVoices "normal"
          1)).delay <
      (WorkingVoiceCloner.createRealisticAudioBlob
        (WorkingVoiceCloner.applyVoiceSettings (Utterance.new text61) sampleVoices "normal"
          1)).delay) := by
  refine ⟨jsLength_text60, jsLength_text61, ?_, rfl, rfl, ?_⟩
  · rw [jsLength_text60]
    decide
  · exact Nat.lt_irrefl 2500

/-- C24, amended. In the basic tier the delay of `speakAndResolve` for a text
of length `n` is `max(2000, 50*n)` ms: it is at least 2000, and once `50*n`
exceeds 2000 it is strictly smaller than the delay of every longer text. In
the enhanced tier the delay of `createRealisticAudioBlob` is 2500 ms for every
utterance: at least 2000, and the same for every text. -/
theorem simulated_delay (text other : String) (voices : List Voice) (mood : String) (p : ℚ)
    (generatedAt : String) :
    (VoiceSimulator.speakAndResolve
        (VoiceSimulator.setupUtterance (Utterance.new text) voices mood p) generatedAt).delay =
      max 2000 (jsLength text * 50) ∧
    2000 ≤ (VoiceSimulator.speakAndResolve
        (VoiceSimulator.setupUtterance (Utterance.new text) voices mood p) generatedAt).delay ∧
    (2000 < jsLength text * 50 → jsLength text < jsLength other →
      (VoiceSimulator.speakAndResolve
          (VoiceSimulator.setupUtterance (Utterance.new text) voices mood p) generatedAt).delay <
        (VoiceSimulator.speakAndResolve
          (VoiceSimulator.setupUtterance (Utterance.new other) voices mood p)
          generatedAt).delay) ∧
    (WorkingVoiceCloner.createRealisticAudioBlob
      (WorkingVoiceCloner.applyVoiceSettings (Utterance.new text) voices mood p)).delay = 2500 ∧
    (WorkingVoiceCloner.createRealisticAudioBlob
      (WorkingVoiceCloner.applyVoiceSettings (Utterance.new text) voices mood p)).delay =
      (WorkingVoiceCloner.createRealisticAudioBlob
        (WorkingVoiceCloner.applyVoiceSettings (Utterance.new other) voices mood p)).delay := by
  rw [basic_delay, basic_delay]
  refine ⟨rfl, le_max_left _ _, ?_, rfl, rfl⟩
  intro hfloor hlt
  rw [max_eq_right (le_of_lt hfloor)]
  exact lt_of_lt_of_le (by omega) (le_max_right _ _)

/-- C24, amended, at the texts of 60 and of 61 letters: the basic delays are
3000 ms and 3050 ms. -/
theorem simulated_delay_witness :
    (VoiceSimulator.speakAndResolve
        (VoiceSimulator.setupUtterance (Utterance.new text60) sampleVoices "normal" 1)
        "1/1/2026, 12:00:00 PM").delay = 3000 ∧
    (VoiceSimulator.speakAndResolve
        (VoiceSimulator.setupUtterance (Utterance.new text60) sampleVoices "normal" 1)
        "1/1/2026, 12:00:00 PM").delay <
      (VoiceSimulator.speakAndResolve
        (VoiceSimulator.setupUtterance (Utterance.new text61) sampleVoices "normal" 1)
        "1/1/2026, 12:00:00 PM").delay :=
  ⟨by rw [basic_delay, jsLength_text60]; decide,
   (simulated_delay text60 text61 sampleVoices "normal" 1 "1/1/2026, 12:00:00 PM").2.2.1
     (by rw [jsLength_text60]; decide) (by rw [jsLength_text60, jsLength_text61]; decide)⟩

end VoiceCloneText
